import Mathlib

/-!
# 3D Free Kick Simulator: the frame loop of `src/main.cpp`

The simulation state of `main` (the ball, the three kick parameters, the game
state, the goal message and its timer) is one record, `Sim`; one iteration of
the `while (!WindowShouldClose())` loop is the function `frame`, which takes
the values the windowing library hands to that iteration (`GetFrameTime()`,
`IsKeyDown`, `IsKeyPressed`) as an `Input`.

The program is embedded twice, with the same control flow.

* Exact model (the definitions directly in `FreeKick`): the C `float`s are
  elements of a linearly ordered field `F` with exact arithmetic (the rationals
  for evaluation, the reals for the trigonometric facts).  The libm functions
  `sinf`, `cosf`, `sqrtf` and raylib's constant `PI` are a parameter `LibM F`;
  the real instance is `Real.sin`, `Real.cos`, `Real.sqrt`, `Real.pi`.  It
  agrees with the compiled program up to rounding as long as no operation
  overflows, produces NaN or absorbs an increment.
* Binary32 model (`FreeKick.F32`, `FreeKick.Binary32`): the `float`s are
  IEEE-754 binary32 values with round-to-nearest-even, infinities and NaN.  It
  is used where overflow, NaN or absorption decides a property.

Drawing code does not change the state and is left out.
-/

namespace FreeKick

/-! ## raylib / raymath types and functions used by `main.cpp`

These belong to the raylib 5.0 library that `main.cpp` includes (`raylib.h`,
`raymath.h`); they are written out here after the library's own sources. -/

/-- The raylib `Vector3`. -/
structure Vector3 (F : Type) where
  x : F
  y : F
  z : F
deriving DecidableEq, Repr

/-- The raylib `BoundingBox`. -/
structure BoundingBox (F : Type) where
  min : Vector3 F
  max : Vector3 F
deriving DecidableEq, Repr

/-- The libm functions and the raylib constant `PI` that `main.cpp` uses. -/
structure LibM (F : Type) where
  sinf : F → F
  cosf : F → F
  sqrtf : F → F
  PI : F

section Defs

variable {F : Type} [LinearOrderedField F]

/-- The raylib constant `DEG2RAD`, defined as `(PI/180.0f)`. -/
def DEG2RAD (m : LibM F) : F := m.PI / 180

/-- The raymath `Vector3Zero`. -/
def Vector3Zero : Vector3 F := ⟨0, 0, 0⟩

/-- The raymath `Vector3Add`. -/
def Vector3Add (v1 v2 : Vector3 F) : Vector3 F :=
  ⟨v1.x + v2.x, v1.y + v2.y, v1.z + v2.z⟩

/-- The raymath `Vector3Scale`. -/
def Vector3Scale (v : Vector3 F) (scalar : F) : Vector3 F :=
  ⟨v.x * scalar, v.y * scalar, v.z * scalar⟩

/-- The raymath `Vector3Negate`. -/
def Vector3Negate (v : Vector3 F) : Vector3 F := ⟨-v.x, -v.y, -v.z⟩

/-- The raymath `Vector3CrossProduct`. -/
def Vector3CrossProduct (v1 v2 : Vector3 F) : Vector3 F :=
  ⟨v1.y * v2.z - v1.z * v2.y, v1.z * v2.x - v1.x * v2.z, v1.x * v2.y - v1.y * v2.x⟩

/-- The raymath `Vector3Length`: `sqrtf(v.x*v.x + v.y*v.y + v.z*v.z)`. -/
def Vector3Length (m : LibM F) (v : Vector3 F) : F :=
  m.sqrtf (v.x * v.x + v.y * v.y + v.z * v.z)

/-- The raymath `Vector3Normalize`: the vector is scaled by `1/length` unless
the length is zero, in which case it is returned as it is. -/
def Vector3Normalize (m : LibM F) (v : Vector3 F) : Vector3 F :=
  let length := m.sqrtf (v.x * v.x + v.y * v.y + v.z * v.z)
  if length ≠ 0 then
    let ilength := 1 / length
    ⟨v.x * ilength, v.y * ilength, v.z * ilength⟩
  else v

/-- The raylib `CheckCollisionBoxSphere` (library code of raylib 5.0, file
`rmodels.c`; `main.cpp` only calls it): the squared distance `dmin` from the
centre to the box is accumulated axis by axis, `powf(d, 2)` per axis, and the
result is `dmin <= radius*radius`. -/
def CheckCollisionBoxSphere (box : BoundingBox F) (center : Vector3 F) (radius : F) : Bool :=
  let dmin : F := 0
  let dmin :=
    if center.x < box.min.x then dmin + (center.x - box.min.x) ^ 2
    else if center.x > box.max.x then dmin + (center.x - box.max.x) ^ 2
    else dmin
  let dmin :=
    if center.y < box.min.y then dmin + (center.y - box.min.y) ^ 2
    else if center.y > box.max.y then dmin + (center.y - box.max.y) ^ 2
    else dmin
  let dmin :=
    if center.z < box.min.z then dmin + (center.z - box.min.z) ^ 2
    else if center.z > box.max.z then dmin + (center.z - box.max.z) ^ 2
    else dmin
  decide (dmin ≤ radius * radius)

/-! ## Types of `main.cpp` -/

/-- The `struct Ball`. -/
structure Ball (F : Type) where
  position : Vector3 F
  velocity : Vector3 F
  acceleration : Vector3 F
  angularVelocity : Vector3 F
  radius : F
  mass : F
  isKicked : Bool
deriving DecidableEq, Repr

/-- The `enum GameState`. -/
inductive GameState where
  | STATE_AIMING
  | STATE_SIMULATING
  | STATE_RESET
deriving DecidableEq, Repr

open GameState

/-- The mutable locals of `main` that the loop body reads and writes. -/
structure Sim (F : Type) where
  ball : Ball F
  kickStrength : F
  kickAngle : F
  kickSpin : F
  currentState : GameState
  goalMessage : String
  messageTimer : F
deriving DecidableEq, Repr

/-- What the windowing library answers during one loop iteration:
`GetFrameTime()`, `IsKeyDown` of the six adjustment keys, and `IsKeyPressed`
of `KEY_SPACE` and `KEY_ENTER`. -/
structure Input (F : Type) where
  dt : F
  keyUp : Bool
  keyDown : Bool
  keyW : Bool
  keyS : Bool
  keyRight : Bool
  keyLeft : Bool
  keySpace : Bool
  keyEnter : Bool
deriving DecidableEq, Repr

/-! ## Functions of `main.cpp` -/

/-- `CalculateMagnusForce`: `liftCoefficient * (angularVelocity × velocity)`. -/
def CalculateMagnusForce (ball : Ball F) : Vector3 F :=
  let liftCoefficient : F := 5 / 100
  Vector3Scale (Vector3CrossProduct ball.angularVelocity ball.velocity) liftCoefficient

/-- `CalculateDragForce`: zero unless the speed is positive. -/
def CalculateDragForce (m : LibM F) (ball : Ball F) : Vector3 F :=
  let dragCoefficient : F := 1 / 100
  let speed := Vector3Length m ball.velocity
  if speed > 0 then
    let dragDirection := Vector3Normalize m (Vector3Negate ball.velocity)
    Vector3Scale dragDirection (dragCoefficient * speed * speed)
  else Vector3Zero

/-- The constant `gravity` of `main`. -/
def gravity : Vector3 F := ⟨0, -(98 / 10), 0⟩

/-- The constant `goalWidth`. -/
def goalWidth : F := 10
/-- The constant `goalHeight`. -/
def goalHeight : F := 4
/-- The constant `goalDepth`. -/
def goalDepth : F := 2
/-- The constant `goalPosition`. -/
def goalPosition : Vector3 F := ⟨0, goalHeight / 2, 25⟩

/-- The `goalBox` of `main`, built from the goal constants as in the source. -/
def goalBox : BoundingBox F :=
  ⟨⟨goalPosition.x - goalWidth / 2, goalPosition.y - goalHeight / 2, goalPosition.z - goalDepth / 2⟩,
   ⟨goalPosition.x + goalWidth / 2, goalPosition.y + goalHeight / 2, goalPosition.z + goalDepth / 2⟩⟩

/-- The state of `main` when the loop is entered (lines 79-107). -/
def init : Sim F where
  ball :=
    { position := ⟨0, 1 / 2, 0⟩
      velocity := ⟨0, 0, 0⟩
      acceleration := ⟨0, 0, 0⟩
      angularVelocity := ⟨0, 0, 0⟩
      radius := 1 / 2
      mass := 45 / 100
      isKicked := false }
  kickStrength := 50
  kickAngle := 15
  kickSpin := 0
  currentState := STATE_AIMING
  goalMessage := ""
  messageTimer := 0

/-- The timer update at the start of the loop body (lines 117-124). -/
def updateTimer (dt : F) (s : Sim F) : Sim F :=
  if s.messageTimer > 0 then { s with messageTimer := s.messageTimer - dt }
  else { s with goalMessage := "" }

/-- The user controls of `case STATE_AIMING` (lines 132-160): each parameter is
adjusted by the keys held and then passed through its two range guards. -/
def aimControls (inp : Input F) (s : Sim F) : Sim F :=
  let dt := inp.dt
  -- Kick Power
  let kickStrength := if inp.keyUp then s.kickStrength + 10 * dt else s.kickStrength
  let kickStrength := if inp.keyDown then kickStrength - 10 * dt else kickStrength
  let kickStrength := if kickStrength < 10 then 10 else kickStrength
  let kickStrength := if kickStrength > 100 then 100 else kickStrength
  -- Kick Angle
  let kickAngle := if inp.keyW then s.kickAngle + 10 * dt else s.kickAngle
  let kickAngle := if inp.keyS then kickAngle - 10 * dt else kickAngle
  let kickAngle := if kickAngle < 0 then 0 else kickAngle
  let kickAngle := if kickAngle > 45 then 45 else kickAngle
  -- Spin
  let kickSpin := if inp.keyRight then s.kickSpin + 20 * dt else s.kickSpin
  let kickSpin := if inp.keyLeft then kickSpin - 20 * dt else kickSpin
  let kickSpin := if kickSpin > 50 then 50 else kickSpin
  let kickSpin := if kickSpin < -50 then -50 else kickSpin
  { s with kickStrength := kickStrength, kickAngle := kickAngle, kickSpin := kickSpin }

/-- The block run when `KEY_SPACE` is pressed (lines 164-177). -/
def kickBall (m : LibM F) (s : Sim F) : Sim F :=
  let angleRad := DEG2RAD m * s.kickAngle
  { s with
    ball := { s.ball with
              isKicked := true
              velocity := ⟨0, m.sinf angleRad * s.kickStrength, m.cosf angleRad * s.kickStrength⟩
              angularVelocity := ⟨0, s.kickSpin, 0⟩ }
    currentState := STATE_SIMULATING }

/-- The body of `case STATE_AIMING` (lines 129-178): the controls, then the
kick if `KEY_SPACE` is pressed. -/
def stepAiming (m : LibM F) (inp : Input F) (s : Sim F) : Sim F :=
  let s := aimControls inp s
  if inp.keySpace then kickBall m s else s

/-- Force accumulation and semi-implicit Euler step (lines 187-202). -/
def integrate (m : LibM F) (dt : F) (ball : Ball F) : Ball F :=
  let force_gravity := Vector3Scale gravity ball.mass
  let force_magnus := CalculateMagnusForce ball
  let force_drag := CalculateDragForce m ball
  let totalForce := Vector3Add force_gravity (Vector3Add force_magnus force_drag)
  let acceleration := Vector3Scale totalForce (1 / ball.mass)
  let velocity := Vector3Add ball.velocity (Vector3Scale acceleration dt)
  let position := Vector3Add ball.position (Vector3Scale velocity dt)
  { ball with acceleration := acceleration, velocity := velocity, position := position }

/-- Ground collision response (lines 206-215). -/
def groundCollision (ball : Ball F) : Ball F :=
  if ball.position.y < ball.radius then
    { ball with
      position := { ball.position with y := ball.radius }
      velocity := ⟨ball.velocity.x * (9 / 10), ball.velocity.y * -(7 / 10), ball.velocity.z * (9 / 10)⟩
      angularVelocity := Vector3Scale ball.angularVelocity (9 / 10) }
  else ball

/-- The condition of the stopped check (line 226). -/
def stopped (m : LibM F) (ball : Ball F) : Bool :=
  decide (Vector3Length m ball.velocity < 1 / 10 ∧ ball.position.y ≤ ball.radius + 1 / 100)

/-- The condition of the out-of-bounds check (line 230). -/
def outOfBounds (ball : Ball F) : Bool :=
  decide (|ball.position.x| > 50 ∨ ball.position.z > 50)

/-- The goal check and the two termination checks (lines 217-233), on the
state whose ball has already been integrated and bounced. -/
def checks (m : LibM F) (s : Sim F) : Sim F :=
  let s :=
    if CheckCollisionBoxSphere goalBox s.ball.position s.ball.radius then
      { s with goalMessage := "GOAL!!!", messageTimer := 3, currentState := STATE_RESET }
    else s
  let s := if stopped m s.ball then { s with currentState := STATE_RESET } else s
  let s := if outOfBounds s.ball then { s with currentState := STATE_RESET } else s
  s

/-- The body of `case STATE_SIMULATING` (lines 182-235). -/
def stepSimulating (m : LibM F) (inp : Input F) (s : Sim F) : Sim F :=
  if s.ball.isKicked then
    checks m { s with ball := groundCollision (integrate m inp.dt s.ball) }
  else s

/-- The body of `case STATE_RESET` (lines 239-253). -/
def stepReset (inp : Input F) (s : Sim F) : Sim F :=
  if inp.keyEnter then
    { s with
      ball := { s.ball with
                position := ⟨0, 1 / 2, 0⟩
                velocity := Vector3Zero
                acceleration := Vector3Zero
                angularVelocity := Vector3Zero
                isKicked := false }
      kickStrength := 50
      kickAngle := 15
      kickSpin := 0
      currentState := STATE_AIMING }
  else s

/-- The `switch (currentState)` of the loop body (lines 126-255). -/
def dispatch (m : LibM F) (inp : Input F) (s : Sim F) : Sim F :=
  match s.currentState with
  | STATE_AIMING => stepAiming m inp s
  | STATE_SIMULATING => stepSimulating m inp s
  | STATE_RESET => stepReset inp s

/-- One iteration of the main loop: timer update, then the switch. -/
def frame (m : LibM F) (inp : Input F) (s : Sim F) : Sim F :=
  dispatch m inp (updateTimer inp.dt s)

/-- The loop run for the frames of `inputs`, in order. -/
def run (m : LibM F) (inputs : List (Input F)) (s : Sim F) : Sim F :=
  inputs.foldl (fun st inp => frame m inp st) s

/-! ## Predicates used to state the properties -/

/-- The three kick parameters are inside their ranges. -/
def ParamsInRange (s : Sim F) : Prop :=
  (10 ≤ s.kickStrength ∧ s.kickStrength ≤ 100) ∧
  (0 ≤ s.kickAngle ∧ s.kickAngle ≤ 45) ∧
  (-50 ≤ s.kickSpin ∧ s.kickSpin ≤ 50)

/-- Geometric intersection, in the spec's words: the solid sphere of centre `c`
and radius `r` and the solid box `box` have a point `p` in common. -/
def SphereMeetsBox (box : BoundingBox F) (c : Vector3 F) (r : F) : Prop :=
  ∃ p : Vector3 F,
    (box.min.x ≤ p.x ∧ p.x ≤ box.max.x) ∧
    (box.min.y ≤ p.y ∧ p.y ≤ box.max.y) ∧
    (box.min.z ≤ p.z ∧ p.z ≤ box.max.z) ∧
    (p.x - c.x) ^ 2 + (p.y - c.y) ^ 2 + (p.z - c.z) ^ 2 ≤ r ^ 2

/-! ## Sample states -/

/-- A simulating state for evaluation: the initial state with the ball kicked
and placed at `position` with velocity `velocity` (no spin). -/
def kickedAt (position velocity : Vector3 F) : Sim F :=
  { init with
    ball := { init.ball with position := position, velocity := velocity, isKicked := true }
    currentState := STATE_SIMULATING }

/-- A state for evaluation: the initial state with the ball kicked (no spin)
and given position, velocity and stored acceleration, with the given kick
strength and angle, in game state `st`. -/
def inPlay (position velocity acceleration : Vector3 F) (strength angle : F)
    (st : GameState) : Sim F :=
  { init with
    ball := { init.ball with
              position := position, velocity := velocity, acceleration := acceleration,
              isKicked := true }
    kickStrength := strength
    kickAngle := angle
    currentState := st }

/-! ## More predicates and spec-side functions -/

/-- The acceleration in the spec's words:
`a = (mass*g + 0.05*(angularVelocity x velocity) + F_drag) / mass` with
`g = (0,-9.8,0)`, written out by components. -/
def specAcceleration (m : LibM F) (ball : Ball F) : Vector3 F :=
  ⟨(ball.mass * 0
      + 5 / 100 * (ball.angularVelocity.y * ball.velocity.z
                    - ball.angularVelocity.z * ball.velocity.y)
      + (CalculateDragForce m ball).x) / ball.mass,
   (ball.mass * -(98 / 10)
      + 5 / 100 * (ball.angularVelocity.z * ball.velocity.x
                    - ball.angularVelocity.x * ball.velocity.z)
      + (CalculateDragForce m ball).y) / ball.mass,
   (ball.mass * 0
      + 5 / 100 * (ball.angularVelocity.x * ball.velocity.y
                    - ball.angularVelocity.y * ball.velocity.x)
      + (CalculateDragForce m ball).z) / ball.mass⟩

/-- A goal is detected in the frame `inp` processes from `s`: the frame runs
the physics (state SIMULATING, ball kicked) and the goal test of line 218 is
true on the integrated and bounced ball. -/
def goalDetected (m : LibM F) (inp : Input F) (s : Sim F) : Bool :=
  decide (s.currentState = STATE_SIMULATING) && s.ball.isKicked &&
    CheckCollisionBoxSphere goalBox
      (groundCollision (integrate m inp.dt s.ball)).position s.ball.radius

/-- The kicked flag is set exactly outside AIMING, and in AIMING the ball is
at the spawn point with zero velocity and zero angular velocity. -/
def KickedTracksState (s : Sim F) : Prop :=
  (s.ball.isKicked = true ↔ s.currentState ≠ STATE_AIMING) ∧
  (s.currentState = STATE_AIMING →
    s.ball.position = ⟨0, 1 / 2, 0⟩ ∧ s.ball.velocity = ⟨0, 0, 0⟩ ∧
    s.ball.angularVelocity = ⟨0, 0, 0⟩)

end Defs

open GameState

/-! ## IEEE-754 binary32 arithmetic

The C `float` of `main.cpp`, for the properties that turn on overflow, NaN or
absorption.  A value is a finite rational (meant to be a representable one),
an infinity or NaN; every operation rounds its exact result to the nearest
representable value, ties to even, gives an infinity on overflow, and follows
the IEEE rules for infinities and NaN.  The sign of zero is not kept. -/

/-- A C `float`. -/
inductive F32 where
  | fin (q : ℚ)
  | pinf
  | ninf
  | nan
deriving DecidableEq, Repr

namespace F32

/-- The largest finite binary32 value, `(2^24 - 1) * 2^104`. -/
def maxFinite : ℚ := (2 ^ 24 - 1) * 2 ^ 104

/-- Floor of the base-2 logarithm of a natural number, by repeated halving
(`fuel` bounds the number of halvings). -/
def natLog2Aux : ℕ → ℕ → ℕ
  | 0, _ => 0
  | fuel + 1, n => if 2 ≤ n then natLog2Aux fuel (n / 2) + 1 else 0

/-- Floor of the base-2 logarithm of a natural number (0 at 0). -/
def natLog2 (n : ℕ) : ℕ := natLog2Aux n n

/-- Floor of the base-2 logarithm of `a > 0`. -/
def floorLog2 (a : ℚ) : ℤ :=
  let c : ℤ := (natLog2 a.num.natAbs : ℤ) - (natLog2 a.den : ℤ)
  if (2 : ℚ) ^ c ≤ a then c else c - 1

/-- Exponent of the unit in the last place at magnitude `a > 0`: 24 significant
bits, and not below `2^-149` (subnormal range). -/
def ulpExp (a : ℚ) : ℤ := max (floorLog2 a - 23) (-149)

/-- The integer nearest to `x >= 0`, ties to even. -/
def roundEven (x : ℚ) : ℤ :=
  let f := ⌊x⌋
  let r := x - f
  if r < 1 / 2 then f else if 1 / 2 < r then f + 1 else if f % 2 = 0 then f else f + 1

/-- Round to the nearest multiple of the unit in the last place, ties to even,
with the exponent unbounded above. -/
def rnd (q : ℚ) : ℚ :=
  if q = 0 then 0
  else
    let k := ulpExp |q|
    let n := roundEven (|q| / 2 ^ k)
    (if q < 0 then -(n : ℚ) else n) * 2 ^ k

/-- The `float` an operation stores for the exact result `q`: the rounded value,
or an infinity when that exceeds the largest finite value. -/
def ofRat (q : ℚ) : F32 :=
  let r := rnd q
  if maxFinite < r then pinf else if r < -maxFinite then ninf else fin r

/-- Unary minus. -/
def neg : F32 → F32
  | fin q => fin (-q)
  | pinf => ninf
  | ninf => pinf
  | nan => nan

/-- Addition: `inf + -inf` is NaN. -/
def add : F32 → F32 → F32
  | fin a, fin b => ofRat (a + b)
  | nan, _ => nan
  | _, nan => nan
  | pinf, ninf => nan
  | ninf, pinf => nan
  | pinf, _ => pinf
  | _, pinf => pinf
  | ninf, _ => ninf
  | _, ninf => ninf

/-- Subtraction. -/
def sub (a b : F32) : F32 := add a (neg b)

/-- The product of an infinity of sign `pos` with the finite value `b`: NaN
when `b` is zero. -/
def mulInf (pos : Bool) (b : ℚ) : F32 :=
  if b = 0 then nan else if decide (0 < b) = pos then pinf else ninf

/-- Multiplication: `0 * inf` is NaN. -/
def mul : F32 → F32 → F32
  | fin a, fin b => ofRat (a * b)
  | nan, _ => nan
  | _, nan => nan
  | pinf, fin b => mulInf true b
  | ninf, fin b => mulInf false b
  | fin a, pinf => mulInf true a
  | fin a, ninf => mulInf false a
  | pinf, pinf => pinf
  | ninf, ninf => pinf
  | pinf, ninf => ninf
  | ninf, pinf => ninf

/-- Division: `0/0` and `inf/inf` are NaN, a non-zero value over zero is an
infinity (the zero taken as positive). -/
def div : F32 → F32 → F32
  | fin a, fin b =>
    if b = 0 then (if a = 0 then nan else if 0 < a then pinf else ninf) else ofRat (a / b)
  | nan, _ => nan
  | _, nan => nan
  | fin _, pinf => fin 0
  | fin _, ninf => fin 0
  | pinf, fin b => if 0 ≤ b then pinf else ninf
  | ninf, fin b => if 0 ≤ b then ninf else pinf
  | pinf, pinf => nan
  | pinf, ninf => nan
  | ninf, pinf => nan
  | ninf, ninf => nan

/-- Integer square root by binary digits: the largest `r` below `2^(i+1)`, built
on top of `r`, whose square is at most `N`. -/
def isqrtAux (N : ℕ) : ℕ → ℕ → ℕ
  | 0, r => if (r + 1) * (r + 1) ≤ N then r + 1 else r
  | i + 1, r =>
    isqrtAux N i (if (r + 2 ^ (i + 1)) * (r + 2 ^ (i + 1)) ≤ N then r + 2 ^ (i + 1) else r)

/-- Integer square root. -/
def isqrt (N : ℕ) : ℕ := isqrtAux N (natLog2 N / 2 + 1) 0

/-- The correctly rounded square root of `q > 0`. -/
def sqrtRnd (q : ℚ) : ℚ :=
  let k : ℤ := floorLog2 q / 2 - 23
  let x : ℚ := q / 2 ^ (2 * k)
  let n0 : ℕ := isqrt ⌊x⌋.toNat
  let mid : ℚ := ((n0 : ℚ) + 1 / 2) ^ 2
  let n : ℕ := if x < mid then n0 else if mid < x then n0 + 1
    else if n0 % 2 = 0 then n0 else n0 + 1
  (n : ℚ) * 2 ^ k

/-- The libm `sqrtf`, correctly rounded: NaN below zero. -/
def sqrt : F32 → F32
  | fin q => if q < 0 then nan else if q = 0 then fin 0 else fin (sqrtRnd q)
  | pinf => pinf
  | ninf => nan
  | nan => nan

/-- The C comparison `<`: false when either side is NaN. -/
def lt : F32 → F32 → Bool
  | fin a, fin b => decide (a < b)
  | fin _, pinf => true
  | ninf, fin _ => true
  | ninf, pinf => true
  | _, _ => false

/-- The C comparison `<=`: false when either side is NaN. -/
def le : F32 → F32 → Bool
  | fin a, fin b => decide (a ≤ b)
  | fin _, pinf => true
  | ninf, fin _ => true
  | ninf, pinf => true
  | pinf, pinf => true
  | ninf, ninf => true
  | _, _ => false

/-- The C comparison `!=`: true when either side is NaN. -/
def ne : F32 → F32 → Bool
  | fin a, fin b => decide (a ≠ b)
  | pinf, pinf => false
  | ninf, ninf => false
  | _, _ => true

/-- The C `fabs`. -/
def abs : F32 → F32
  | fin q => fin |q|
  | pinf => pinf
  | ninf => pinf
  | nan => nan

instance : Add F32 := ⟨add⟩
instance : Sub F32 := ⟨sub⟩
instance : Mul F32 := ⟨mul⟩
instance : Div F32 := ⟨div⟩
instance : Neg F32 := ⟨neg⟩
instance : LT F32 := ⟨fun a b => lt a b = true⟩
instance : LE F32 := ⟨fun a b => le a b = true⟩
instance (a b : F32) : Decidable (a < b) := inferInstanceAs (Decidable (lt a b = true))
instance (a b : F32) : Decidable (a ≤ b) := inferInstanceAs (Decidable (le a b = true))
instance (n : ℕ) : OfNat F32 n := ⟨ofRat n⟩
instance : OfScientific F32 := ⟨fun m s e => ofRat (OfScientific.ofScientific m s e)⟩

end F32

/-! ## The program over binary32

The functions of `main.cpp` and of raylib once more, line for line as in the
exact model above, with every `float` operation the binary32 one.  `sinf` and
`cosf` stay a parameter (`LibM F32`); `sqrtf` is correctly rounded. -/

namespace Binary32

/-- Stand-in for libm `sinf` on the kick angles: the Taylor polynomial of degree
9 of the sine, rounded.  It is within `2e-9` of the sine on `[0, pi/4]`, the
range the clamped kick angle allows, and exact at 0; NaN and the infinities
give NaN, as in libm. -/
def sinfPoly : F32 → F32
  | F32.fin q => F32.ofRat (q - q ^ 3 / 6 + q ^ 5 / 120 - q ^ 7 / 5040 + q ^ 9 / 362880)
  | _ => F32.nan

/-- Stand-in for libm `cosf` on the kick angles: the Taylor polynomial of degree
10 of the cosine, rounded; exact at 0; NaN and the infinities give NaN. -/
def cosfPoly : F32 → F32
  | F32.fin q =>
    F32.ofRat (1 - q ^ 2 / 2 + q ^ 4 / 24 - q ^ 6 / 720 + q ^ 8 / 40320 - q ^ 10 / 3628800)
  | _ => F32.nan

/-- The libm functions used to evaluate the binary32 program: the polynomial
`sinf` and `cosf`, the correctly rounded `sqrtf`, and raylib's `PI`. -/
def libm : LibM F32 := ⟨sinfPoly, cosfPoly, F32.sqrt, 3.14159265358979323846⟩

/-- The raylib constant `DEG2RAD`, `(PI/180.0f)`. -/
def DEG2RAD (m : LibM F32) : F32 := m.PI / 180

/-- The raymath `Vector3Zero`. -/
def Vector3Zero : Vector3 F32 := ⟨0, 0, 0⟩

/-- The raymath `Vector3Add`. -/
def Vector3Add (v1 v2 : Vector3 F32) : Vector3 F32 :=
  ⟨v1.x + v2.x, v1.y + v2.y, v1.z + v2.z⟩

/-- The raymath `Vector3Scale`. -/
def Vector3Scale (v : Vector3 F32) (scalar : F32) : Vector3 F32 :=
  ⟨v.x * scalar, v.y * scalar, v.z * scalar⟩

/-- The raymath `Vector3Negate`. -/
def Vector3Negate (v : Vector3 F32) : Vector3 F32 := ⟨-v.x, -v.y, -v.z⟩

/-- The raymath `Vector3CrossProduct`. -/
def Vector3CrossProduct (v1 v2 : Vector3 F32) : Vector3 F32 :=
  ⟨v1.y * v2.z - v1.z * v2.y, v1.z * v2.x - v1.x * v2.z, v1.x * v2.y - v1.y * v2.x⟩

/-- The raymath `Vector3Length`. -/
def Vector3Length (m : LibM F32) (v : Vector3 F32) : F32 :=
  m.sqrtf (v.x * v.x + v.y * v.y + v.z * v.z)

/-- The raymath `Vector3Normalize`. -/
def Vector3Normalize (m : LibM F32) (v : Vector3 F32) : Vector3 F32 :=
  let length := m.sqrtf (v.x * v.x + v.y * v.y + v.z * v.z)
  if F32.ne length 0 then
    let ilength := 1 / length
    ⟨v.x * ilength, v.y * ilength, v.z * ilength⟩
  else v

/-- The raylib `CheckCollisionBoxSphere`; `powf(d, 2)` is the rounded square. -/
def CheckCollisionBoxSphere (box : BoundingBox F32) (center : Vector3 F32) (radius : F32) :
    Bool :=
  let dmin : F32 := 0
  let dmin :=
    if center.x < box.min.x then dmin + (center.x - box.min.x) * (center.x - box.min.x)
    else if center.x > box.max.x then dmin + (center.x - box.max.x) * (center.x - box.max.x)
    else dmin
  let dmin :=
    if center.y < box.min.y then dmin + (center.y - box.min.y) * (center.y - box.min.y)
    else if center.y > box.max.y then dmin + (center.y - box.max.y) * (center.y - box.max.y)
    else dmin
  let dmin :=
    if center.z < box.min.z then dmin + (center.z - box.min.z) * (center.z - box.min.z)
    else if center.z > box.max.z then dmin + (center.z - box.max.z) * (center.z - box.max.z)
    else dmin
  decide (dmin ≤ radius * radius)

/-- `CalculateMagnusForce`. -/
def CalculateMagnusForce (ball : Ball F32) : Vector3 F32 :=
  let liftCoefficient : F32 := 0.05
  Vector3Scale (Vector3CrossProduct ball.angularVelocity ball.velocity) liftCoefficient

/-- `CalculateDragForce`. -/
def CalculateDragForce (m : LibM F32) (ball : Ball F32) : Vector3 F32 :=
  let dragCoefficient : F32 := 0.01
  let speed := Vector3Length m ball.velocity
  if speed > 0 then
    let dragDirection := Vector3Normalize m (Vector3Negate ball.velocity)
    Vector3Scale dragDirection (dragCoefficient * speed * speed)
  else Vector3Zero

/-- The constant `gravity`. -/
def gravity : Vector3 F32 := ⟨0, -9.8, 0⟩

/-- The constant `goalWidth`. -/
def goalWidth : F32 := 10
/-- The constant `goalHeight`. -/
def goalHeight : F32 := 4
/-- The constant `goalDepth`. -/
def goalDepth : F32 := 2
/-- The constant `goalPosition`. -/
def goalPosition : Vector3 F32 := ⟨0, goalHeight / 2, 25⟩

/-- The `goalBox` of `main`. -/
def goalBox : BoundingBox F32 :=
  ⟨⟨goalPosition.x - goalWidth / 2, goalPosition.y - goalHeight / 2, goalPosition.z - goalDepth / 2⟩,
   ⟨goalPosition.x + goalWidth / 2, goalPosition.y + goalHeight / 2, goalPosition.z + goalDepth / 2⟩⟩

/-- The state of `main` when the loop is entered (lines 79-107). -/
def init : Sim F32 where
  ball :=
    { position := ⟨0, 0.5, 0⟩
      velocity := ⟨0, 0, 0⟩
      acceleration := ⟨0, 0, 0⟩
      angularVelocity := ⟨0, 0, 0⟩
      radius := 0.5
      mass := 0.45
      isKicked := false }
  kickStrength := 50
  kickAngle := 15
  kickSpin := 0
  currentState := STATE_AIMING
  goalMessage := ""
  messageTimer := 0

/-- The timer update at the start of the loop body (lines 117-124). -/
def updateTimer (dt : F32) (s : Sim F32) : Sim F32 :=
  if s.messageTimer > 0 then { s with messageTimer := s.messageTimer - dt }
  else { s with goalMessage := "" }

/-- The user controls of `case STATE_AIMING` (lines 132-160). -/
def aimControls (inp : Input F32) (s : Sim F32) : Sim F32 :=
  let dt := inp.dt
  -- Kick Power
  let kickStrength := if inp.keyUp then s.kickStrength + 10 * dt else s.kickStrength
  let kickStrength := if inp.keyDown then kickStrength - 10 * dt else kickStrength
  let kickStrength := if kickStrength < 10 then 10 else kickStrength
  let kickStrength := if kickStrength > 100 then 100 else kickStrength
  -- Kick Angle
  let kickAngle := if inp.keyW then s.kickAngle + 10 * dt else s.kickAngle
  let kickAngle := if inp.keyS then kickAngle - 10 * dt else kickAngle
  let kickAngle := if kickAngle < 0 then 0 else kickAngle
  let kickAngle := if kickAngle > 45 then 45 else kickAngle
  -- Spin
  let kickSpin := if inp.keyRight then s.kickSpin + 20 * dt else s.kickSpin
  let kickSpin := if inp.keyLeft then kickSpin - 20 * dt else kickSpin
  let kickSpin := if kickSpin > 50 then 50 else kickSpin
  let kickSpin := if kickSpin < -50 then -50 else kickSpin
  { s with kickStrength := kickStrength, kickAngle := kickAngle, kickSpin := kickSpin }

/-- The block run when `KEY_SPACE` is pressed (lines 164-177). -/
def kickBall (m : LibM F32) (s : Sim F32) : Sim F32 :=
  let angleRad := DEG2RAD m * s.kickAngle
  { s with
    ball := { s.ball with
              isKicked := true
              velocity := ⟨0, m.sinf angleRad * s.kickStrength, m.cosf angleRad * s.kickStrength⟩
              angularVelocity := ⟨0, s.kickSpin, 0⟩ }
    currentState := STATE_SIMULATING }

/-- The body of `case STATE_AIMING` (lines 129-178). -/
def stepAiming (m : LibM F32) (inp : Input F32) (s : Sim F32) : Sim F32 :=
  let s := aimControls inp s
  if inp.keySpace then kickBall m s else s

/-- Force accumulation and semi-implicit Euler step (lines 187-202). -/
def integrate (m : LibM F32) (dt : F32) (ball : Ball F32) : Ball F32 :=
  let force_gravity := Vector3Scale gravity ball.mass
  let force_magnus := CalculateMagnusForce ball
  let force_drag := CalculateDragForce m ball
  let totalForce := Vector3Add force_gravity (Vector3Add force_magnus force_drag)
  let acceleration := Vector3Scale totalForce (1 / ball.mass)
  let velocity := Vector3Add ball.velocity (Vector3Scale acceleration dt)
  let position := Vector3Add ball.position (Vector3Scale velocity dt)
  { ball with acceleration := acceleration, velocity := velocity, position := position }

/-- Ground collision response (lines 206-215). -/
def groundCollision (ball : Ball F32) : Ball F32 :=
  if ball.position.y < ball.radius then
    { ball with
      position := { ball.position with y := ball.radius }
      velocity := ⟨ball.velocity.x * 0.9, ball.velocity.y * -0.7, ball.velocity.z * 0.9⟩
      angularVelocity := Vector3Scale ball.angularVelocity 0.9 }
  else ball

/-- The condition of the stopped check (line 226). -/
def stopped (m : LibM F32) (ball : Ball F32) : Bool :=
  decide (Vector3Length m ball.velocity < 0.1 ∧ ball.position.y ≤ ball.radius + 0.01)

/-- The condition of the out-of-bounds check (line 230). -/
def outOfBounds (ball : Ball F32) : Bool :=
  decide (F32.abs ball.position.x > 50 ∨ ball.position.z > 50)

/-- The goal check and the two termination checks (lines 217-233). -/
def checks (m : LibM F32) (s : Sim F32) : Sim F32 :=
  let s :=
    if CheckCollisionBoxSphere goalBox s.ball.position s.ball.radius then
      { s with goalMessage := "GOAL!!!", messageTimer := 3, currentState := STATE_RESET }
    else s
  let s := if stopped m s.ball then { s with currentState := STATE_RESET } else s
  let s := if outOfBounds s.ball then { s with currentState := STATE_RESET } else s
  s

/-- The body of `case STATE_SIMULATING` (lines 182-235). -/
def stepSimulating (m : LibM F32) (inp : Input F32) (s : Sim F32) : Sim F32 :=
  if s.ball.isKicked then
    checks m { s with ball := groundCollision (integrate m inp.dt s.ball) }
  else s

/-- The body of `case STATE_RESET` (lines 239-253). -/
def stepReset (inp : Input F32) (s : Sim F32) : Sim F32 :=
  if inp.keyEnter then
    { s with
      ball := { s.ball with
                position := ⟨0, 0.5, 0⟩
                velocity := Vector3Zero
                acceleration := Vector3Zero
                angularVelocity := Vector3Zero
                isKicked := false }
      kickStrength := 50
      kickAngle := 15
      kickSpin := 0
      currentState := STATE_AIMING }
  else s

/-- The `switch (currentState)` of the loop body (lines 126-255). -/
def dispatch (m : LibM F32) (inp : Input F32) (s : Sim F32) : Sim F32 :=
  match s.currentState with
  | STATE_AIMING => stepAiming m inp s
  | STATE_SIMULATING => stepSimulating m inp s
  | STATE_RESET => stepReset inp s

/-- One iteration of the main loop: timer update, then the switch. -/
def frame (m : LibM F32) (inp : Input F32) (s : Sim F32) : Sim F32 :=
  dispatch m inp (updateTimer inp.dt s)

/-- The loop run for the frames of `inputs`, in order. -/
def run (m : LibM F32) (inputs : List (Input F32)) (s : Sim F32) : Sim F32 :=
  inputs.foldl (fun st inp => frame m inp st) s

end Binary32

/-! ## Predicates on binary32 states -/

/-- The comparison `position.y < radius` is false, and the ball has the radius
and mass of `main`. -/
def Binary32.NotBelowGround (s : Sim F32) : Prop :=
  ¬ (s.ball.position.y < s.ball.radius) ∧
  s.ball.radius = 0.5 ∧ s.ball.mass = 0.45

section Lemmas
variable {F : Type} [LinearOrderedField F]

/-! ## Box and sphere -/

/-- Squared distance from the coordinate `c` to the interval `[lo, hi]`, as
`CheckCollisionBoxSphere` accumulates it for one axis. -/
theorem axis_dist_le {lo hi c p : F} (h1 : lo ≤ p) (h2 : p ≤ hi) :
    (if c < lo then (c - lo) ^ 2 else if c > hi then (c - hi) ^ 2 else 0) ≤ (p - c) ^ 2 := by
  split_ifs with h h'
  · nlinarith
  · nlinarith
  · positivity

theorem axis_dist_attained {lo hi : F} (h : lo ≤ hi) (c : F) :
    ∃ p, lo ≤ p ∧ p ≤ hi ∧
      (p - c) ^ 2 = (if c < lo then (c - lo) ^ 2 else if c > hi then (c - hi) ^ 2 else 0) := by
  by_cases h1 : c < lo
  · exact ⟨lo, le_refl _, h, by simp only [h1, if_true]; ring⟩
  · by_cases h2 : c > hi
    · exact ⟨hi, h, le_refl _, by simp only [h1, h2, if_true, if_false]; ring⟩
    · exact ⟨c, not_lt.mp h1, not_lt.mp h2, by simp only [h1, h2, if_false]; ring⟩

theorem checkCollision_eq (box : BoundingBox F) (c : Vector3 F) (r : F) :
    CheckCollisionBoxSphere box c r
      = decide ((if c.x < box.min.x then (c.x - box.min.x) ^ 2
                  else if c.x > box.max.x then (c.x - box.max.x) ^ 2 else 0)
              + (if c.y < box.min.y then (c.y - box.min.y) ^ 2
                  else if c.y > box.max.y then (c.y - box.max.y) ^ 2 else 0)
              + (if c.z < box.min.z then (c.z - box.min.z) ^ 2
                  else if c.z > box.max.z then (c.z - box.max.z) ^ 2 else 0) ≤ r * r) := by
  unfold CheckCollisionBoxSphere
  split_ifs <;> simp only [zero_add, add_zero]

/-- For a box with `min ≤ max` on every axis, raylib's test is exactly
geometric intersection of the solid sphere and the solid box. -/
theorem checkCollision_iff_meets (box : BoundingBox F) (c : Vector3 F) (r : F)
    (hx : box.min.x ≤ box.max.x) (hy : box.min.y ≤ box.max.y) (hz : box.min.z ≤ box.max.z) :
    CheckCollisionBoxSphere box c r = true ↔ SphereMeetsBox box c r := by
  rw [checkCollision_eq, decide_eq_true_iff]
  constructor
  · intro h
    obtain ⟨px, hx1, hx2, hxe⟩ := axis_dist_attained hx c.x
    obtain ⟨py, hy1, hy2, hye⟩ := axis_dist_attained hy c.y
    obtain ⟨pz, hz1, hz2, hze⟩ := axis_dist_attained hz c.z
    refine ⟨⟨px, py, pz⟩, ⟨hx1, hx2⟩, ⟨hy1, hy2⟩, ⟨hz1, hz2⟩, ?_⟩
    simp only
    rw [hxe, hye, hze, pow_two r]
    exact h
  · rintro ⟨p, ⟨hx1, hx2⟩, ⟨hy1, hy2⟩, ⟨hz1, hz2⟩, hd⟩
    have h1 := axis_dist_le (c := c.x) hx1 hx2
    have h2 := axis_dist_le (c := c.y) hy1 hy2
    have h3 := axis_dist_le (c := c.z) hz1 hz2
    rw [pow_two r] at hd
    linarith

theorem goalBox_eq : (goalBox : BoundingBox F) = ⟨⟨-5, 0, 24⟩, ⟨5, 4, 26⟩⟩ := by
  simp only [goalBox, goalPosition, goalWidth, goalHeight, goalDepth]
  norm_num

end Lemmas
section Timer
variable {F : Type} [LinearOrderedField F]

/-! ## The frame-start timer update touches only the message and the timer -/

@[simp] theorem updateTimer_ball (dt : F) (s : Sim F) : (updateTimer dt s).ball = s.ball := by
  unfold updateTimer; split_ifs <;> rfl

@[simp] theorem updateTimer_kickStrength (dt : F) (s : Sim F) :
    (updateTimer dt s).kickStrength = s.kickStrength := by
  unfold updateTimer; split_ifs <;> rfl

@[simp] theorem updateTimer_kickAngle (dt : F) (s : Sim F) :
    (updateTimer dt s).kickAngle = s.kickAngle := by
  unfold updateTimer; split_ifs <;> rfl

@[simp] theorem updateTimer_kickSpin (dt : F) (s : Sim F) :
    (updateTimer dt s).kickSpin = s.kickSpin := by
  unfold updateTimer; split_ifs <;> rfl

@[simp] theorem updateTimer_currentState (dt : F) (s : Sim F) :
    (updateTimer dt s).currentState = s.currentState := by
  unfold updateTimer; split_ifs <;> rfl

/-! ## The clamps of the aiming controls -/

/-- The guards `if k < lo then lo`, then `if k > hi then hi`, leave a value in `[lo, hi]`. -/
theorem clamp_low_high {lo hi : F} (h : lo ≤ hi) (k : F) :
    lo ≤ (if (if k < lo then lo else k) > hi then hi else (if k < lo then lo else k)) ∧
    (if (if k < lo then lo else k) > hi then hi else (if k < lo then lo else k)) ≤ hi := by
  split_ifs <;> constructor <;> linarith

/-- The guards `if k > hi then hi`, then `if k < lo then lo`, leave a value in `[lo, hi]`. -/
theorem clamp_high_low {lo hi : F} (h : lo ≤ hi) (k : F) :
    lo ≤ (if (if k > hi then hi else k) < lo then lo else (if k > hi then hi else k)) ∧
    (if (if k > hi then hi else k) < lo then lo else (if k > hi then hi else k)) ≤ hi := by
  split_ifs <;> constructor <;> linarith

/-- Whatever the parameters were, the controls leave them in range. -/
theorem aimControls_paramsInRange (inp : Input F) (s : Sim F) :
    ParamsInRange (aimControls inp s) :=
  ⟨clamp_low_high (by norm_num) _, clamp_low_high (by norm_num) _,
    clamp_high_low (by norm_num) _⟩

@[simp] theorem kickBall_kickStrength (m : LibM F) (s : Sim F) :
    (kickBall m s).kickStrength = s.kickStrength := rfl

@[simp] theorem kickBall_kickAngle (m : LibM F) (s : Sim F) :
    (kickBall m s).kickAngle = s.kickAngle := rfl

@[simp] theorem kickBall_kickSpin (m : LibM F) (s : Sim F) :
    (kickBall m s).kickSpin = s.kickSpin := rfl

@[simp] theorem aimControls_ball (inp : Input F) (s : Sim F) :
    (aimControls inp s).ball = s.ball := rfl

@[simp] theorem aimControls_currentState (inp : Input F) (s : Sim F) :
    (aimControls inp s).currentState = s.currentState := rfl

end Timer
section Steps
variable {F : Type} [LinearOrderedField F]

/-! ## The goal check and the termination checks -/

@[simp] theorem checks_ball (m : LibM F) (s : Sim F) : (checks m s).ball = s.ball := by
  unfold checks; simp only; split_ifs <;> rfl

@[simp] theorem checks_kickStrength (m : LibM F) (s : Sim F) :
    (checks m s).kickStrength = s.kickStrength := by
  unfold checks; simp only; split_ifs <;> rfl

@[simp] theorem checks_kickAngle (m : LibM F) (s : Sim F) :
    (checks m s).kickAngle = s.kickAngle := by
  unfold checks; simp only; split_ifs <;> rfl

@[simp] theorem checks_kickSpin (m : LibM F) (s : Sim F) :
    (checks m s).kickSpin = s.kickSpin := by
  unfold checks; simp only; split_ifs <;> rfl

theorem checks_goalMessage (m : LibM F) (s : Sim F) :
    (checks m s).goalMessage =
      if CheckCollisionBoxSphere goalBox s.ball.position s.ball.radius = true then "GOAL!!!"
      else s.goalMessage := by
  unfold checks; simp only; split_ifs <;> rfl

theorem checks_messageTimer (m : LibM F) (s : Sim F) :
    (checks m s).messageTimer =
      if CheckCollisionBoxSphere goalBox s.ball.position s.ball.radius = true then 3
      else s.messageTimer := by
  unfold checks; simp only; split_ifs <;> rfl

theorem checks_currentState (m : LibM F) (s : Sim F) :
    (checks m s).currentState =
      if CheckCollisionBoxSphere goalBox s.ball.position s.ball.radius = true
          ∨ stopped m s.ball = true ∨ outOfBounds s.ball = true then STATE_RESET
      else s.currentState := by
  unfold checks; simp only; split_ifs <;> simp_all

end Steps
section Steps2
variable {F : Type} [LinearOrderedField F]

/-! ## Integration and ground response keep radius, mass and the kicked flag -/

@[simp] theorem integrate_radius (m : LibM F) (dt : F) (b : Ball F) :
    (integrate m dt b).radius = b.radius := rfl

@[simp] theorem integrate_mass (m : LibM F) (dt : F) (b : Ball F) :
    (integrate m dt b).mass = b.mass := rfl

@[simp] theorem groundCollision_radius (b : Ball F) : (groundCollision b).radius = b.radius := by
  unfold groundCollision; split_ifs <;> rfl

@[simp] theorem groundCollision_mass (b : Ball F) : (groundCollision b).mass = b.mass := by
  unfold groundCollision; split_ifs <;> rfl

/-- The ball at the goal check and the termination checks of a frame: the
integrated ball after the ground response. -/
theorem stepSimulating_kicked (m : LibM F) (inp : Input F) (s : Sim F)
    (hk : s.ball.isKicked = true) :
    stepSimulating m inp s
      = checks m { s with ball := groundCollision (integrate m inp.dt s.ball) } := by
  unfold stepSimulating; rw [if_pos hk]

theorem stepSimulating_kickStrength (m : LibM F) (inp : Input F) (s : Sim F) :
    (stepSimulating m inp s).kickStrength = s.kickStrength := by
  unfold stepSimulating; split_ifs <;> simp

theorem stepSimulating_kickAngle (m : LibM F) (inp : Input F) (s : Sim F) :
    (stepSimulating m inp s).kickAngle = s.kickAngle := by
  unfold stepSimulating; split_ifs <;> simp

theorem stepSimulating_kickSpin (m : LibM F) (inp : Input F) (s : Sim F) :
    (stepSimulating m inp s).kickSpin = s.kickSpin := by
  unfold stepSimulating; split_ifs <;> simp

theorem stepSimulating_state (m : LibM F) (inp : Input F) (s : Sim F) :
    (stepSimulating m inp s).currentState = s.currentState ∨
    (stepSimulating m inp s).currentState = STATE_RESET := by
  unfold stepSimulating
  split_ifs
  · rw [checks_currentState]; split_ifs
    · exact Or.inr rfl
    · exact Or.inl rfl
  · exact Or.inl rfl

/-! ## Frames by starting state -/

theorem frame_aiming (m : LibM F) (inp : Input F) (s : Sim F)
    (hs : s.currentState = STATE_AIMING) :
    frame m inp s = stepAiming m inp (updateTimer inp.dt s) := by
  unfold frame dispatch; rw [updateTimer_currentState, hs]

theorem frame_simulating (m : LibM F) (inp : Input F) (s : Sim F)
    (hs : s.currentState = STATE_SIMULATING) :
    frame m inp s = stepSimulating m inp (updateTimer inp.dt s) := by
  unfold frame dispatch; rw [updateTimer_currentState, hs]

theorem frame_reset (m : LibM F) (inp : Input F) (s : Sim F)
    (hs : s.currentState = STATE_RESET) :
    frame m inp s = stepReset inp (updateTimer inp.dt s) := by
  unfold frame dispatch; rw [updateTimer_currentState, hs]

/-- A kicked simulating frame: timer update, integration, ground response, checks. -/
theorem frame_simulating_kicked (m : LibM F) (inp : Input F) (s : Sim F)
    (hs : s.currentState = STATE_SIMULATING) (hk : s.ball.isKicked = true) :
    frame m inp s
      = checks m { updateTimer inp.dt s with
                   ball := groundCollision (integrate m inp.dt s.ball) } := by
  rw [frame_simulating m inp s hs, stepSimulating_kicked m inp _ (by rw [updateTimer_ball]; exact hk),
    updateTimer_ball]

theorem run_nil (m : LibM F) (s : Sim F) : run m [] s = s := rfl

theorem run_cons (m : LibM F) (inp : Input F) (inputs : List (Input F)) (s : Sim F) :
    run m (inp :: inputs) s = run m inputs (frame m inp s) := rfl

theorem run_append_single (m : LibM F) (inputs : List (Input F)) (inp : Input F) (s : Sim F) :
    run m (inputs ++ [inp]) s = frame m inp (run m inputs s) := by
  simp [run, List.foldl_append]

end Steps2

section Claims
variable {F : Type} [LinearOrderedField F]

end Claims
section Kick
variable {F : Type} [LinearOrderedField F]

/-! ## The aiming step in closed form -/

theorem guard_low_eq_max (lo k : F) : (if k < lo then lo else k) = max k lo := by
  rcases lt_or_le k lo with h | h
  · rw [if_pos h, max_eq_right h.le]
  · rw [if_neg (not_lt.mpr h), max_eq_left h]

theorem guard_high_eq_min (hi k : F) : (if k > hi then hi else k) = min k hi := by
  rcases lt_or_le hi k with h | h
  · rw [if_pos h, min_eq_right h.le]
  · rw [if_neg (not_lt.mpr h), min_eq_left h]

/-- The value a pair of adjustment keys gives before the guards. -/
theorem adjust_eq (up down : Bool) (k d : F) :
    (if down = true then (if up = true then k + d else k) - d
      else (if up = true then k + d else k))
      = k + (if up = true then d else 0) - (if down = true then d else 0) := by
  cases up <;> cases down <;> simp

theorem aimControls_kickStrength (inp : Input F) (s : Sim F) :
    (aimControls inp s).kickStrength =
      min (max (s.kickStrength + (if inp.keyUp = true then 10 * inp.dt else 0)
                 - (if inp.keyDown = true then 10 * inp.dt else 0)) 10) 100 := by
  rw [← adjust_eq, ← guard_low_eq_max, ← guard_high_eq_min]; rfl

theorem aimControls_kickAngle (inp : Input F) (s : Sim F) :
    (aimControls inp s).kickAngle =
      min (max (s.kickAngle + (if inp.keyW = true then 10 * inp.dt else 0)
                 - (if inp.keyS = true then 10 * inp.dt else 0)) 0) 45 := by
  rw [← adjust_eq, ← guard_low_eq_max, ← guard_high_eq_min]; rfl

theorem aimControls_kickSpin (inp : Input F) (s : Sim F) :
    (aimControls inp s).kickSpin =
      max (min (s.kickSpin + (if inp.keyRight = true then 20 * inp.dt else 0)
                 - (if inp.keyLeft = true then 20 * inp.dt else 0)) 50) (-50) := by
  rw [← adjust_eq, ← guard_high_eq_min, ← guard_low_eq_max]; rfl

theorem stepAiming_kickStrength (m : LibM F) (inp : Input F) (s : Sim F) :
    (stepAiming m inp s).kickStrength = (aimControls inp s).kickStrength := by
  unfold stepAiming; split_ifs <;> rfl

theorem stepAiming_kickAngle (m : LibM F) (inp : Input F) (s : Sim F) :
    (stepAiming m inp s).kickAngle = (aimControls inp s).kickAngle := by
  unfold stepAiming; split_ifs <;> rfl

theorem stepAiming_kickSpin (m : LibM F) (inp : Input F) (s : Sim F) :
    (stepAiming m inp s).kickSpin = (aimControls inp s).kickSpin := by
  unfold stepAiming; split_ifs <;> rfl

theorem stepAiming_state (m : LibM F) (inp : Input F) (s : Sim F) :
    (stepAiming m inp s).currentState =
      if inp.keySpace = true then STATE_SIMULATING else s.currentState := by
  unfold stepAiming; split_ifs <;> rfl

theorem stepAiming_pressed (m : LibM F) (inp : Input F) (s : Sim F)
    (hk : inp.keySpace = true) : stepAiming m inp s = kickBall m (aimControls inp s) := by
  unfold stepAiming; rw [if_pos hk]

end Kick

section RealClaims

/-! ## The kick over the reals -/

/-- C2. Kick transition: a frame processed in AIMING with the kick key pressed
ends in SIMULATING with `isKicked` set, velocity
`(0, sin(angle*pi/180)*strength, cos(angle*pi/180)*strength)` and angular
velocity `(0, spin, 0)`, where strength, angle and spin are the parameters the
frame leaves, that is the adjusted and clamped ones; with strength 50, angle 0,
spin 0 and no adjustment key held the velocity is `(0,0,50)` and the angular
velocity is zero. -/
theorem kick_transition (inp : Input ℝ) (s : Sim ℝ)
    (hs : s.currentState = STATE_AIMING) (hk : inp.keySpace = true) :
    let s' := frame ⟨Real.sin, Real.cos, Real.sqrt, Real.pi⟩ inp s
    s'.currentState = STATE_SIMULATING ∧
    s'.ball.isKicked = true ∧
    s'.ball.velocity = ⟨0, Real.sin (s'.kickAngle * Real.pi / 180) * s'.kickStrength,
                          Real.cos (s'.kickAngle * Real.pi / 180) * s'.kickStrength⟩ ∧
    s'.ball.angularVelocity = ⟨0, s'.kickSpin, 0⟩ ∧
    s'.kickStrength =
      min (max (s.kickStrength + (if inp.keyUp = true then 10 * inp.dt else 0)
                 - (if inp.keyDown = true then 10 * inp.dt else 0)) 10) 100 ∧
    s'.kickAngle =
      min (max (s.kickAngle + (if inp.keyW = true then 10 * inp.dt else 0)
                 - (if inp.keyS = true then 10 * inp.dt else 0)) 0) 45 ∧
    s'.kickSpin =
      max (min (s.kickSpin + (if inp.keyRight = true then 20 * inp.dt else 0)
                 - (if inp.keyLeft = true then 20 * inp.dt else 0)) 50) (-50) ∧
    (s.kickStrength = 50 → s.kickAngle = 0 → s.kickSpin = 0 →
      inp.keyUp = false → inp.keyDown = false → inp.keyW = false → inp.keyS = false →
      inp.keyRight = false → inp.keyLeft = false →
      s'.ball.velocity = ⟨0, 0, 50⟩ ∧ s'.ball.angularVelocity = ⟨0, 0, 0⟩) := by
  intro s'
  have e : s' = kickBall ⟨Real.sin, Real.cos, Real.sqrt, Real.pi⟩
      (aimControls inp (updateTimer inp.dt s)) := by
    show frame _ inp s = _
    rw [frame_aiming _ inp s hs, stepAiming_pressed _ inp _ hk]
  clear_value s'
  subst e
  have hv : ∀ t : Sim ℝ, (kickBall ⟨Real.sin, Real.cos, Real.sqrt, Real.pi⟩ t).ball.velocity
      = ⟨0, Real.sin (t.kickAngle * Real.pi / 180) * t.kickStrength,
            Real.cos (t.kickAngle * Real.pi / 180) * t.kickStrength⟩ := by
    intro t
    have ha : Real.pi / 180 * t.kickAngle = t.kickAngle * Real.pi / 180 := by ring
    simp only [kickBall, DEG2RAD, ha]
  have hw : ∀ t : Sim ℝ, (kickBall ⟨Real.sin, Real.cos, Real.sqrt, Real.pi⟩ t).ball.angularVelocity
      = ⟨0, t.kickSpin, 0⟩ := fun _ => rfl
  simp only [hv, hw, kickBall_kickStrength, kickBall_kickAngle, kickBall_kickSpin,
    aimControls_kickStrength, aimControls_kickAngle, aimControls_kickSpin,
    updateTimer_kickStrength, updateTimer_kickAngle, updateTimer_kickSpin, true_and]
  refine ⟨rfl, rfl, ?_⟩
  intro k50 a0 s0 u d w x r l
  rw [k50, a0, s0, u, d, w, x, r, l]
  norm_num

/-- Applying C2 to the initial state with only the kick key pressed. -/
theorem kick_transition_witness :
    (init : Sim ℝ).currentState = STATE_AIMING ∧
    (frame ⟨Real.sin, Real.cos, Real.sqrt, Real.pi⟩
      (⟨1 / 60, false, false, false, false, false, false, true, false⟩ : Input ℝ)
      init).currentState = STATE_SIMULATING :=
  ⟨rfl, (kick_transition ⟨1 / 60, false, false, false, false, false, false, true, false⟩
    init rfl rfl).1⟩

end RealClaims
section RealClaims2

/-- With angle in `[0,45]` degrees and strength in `[0,100]`, the vertical
component `sin(angle*pi/180)*strength` is at most `sin(45*pi/180)*100`. -/
theorem sin_mul_le_of_range (a k : ℝ) (ha0 : 0 ≤ a) (ha : a ≤ 45) (hk0 : 0 ≤ k) (hk : k ≤ 100) :
    Real.sin (Real.pi / 180 * a) * k ≤ Real.sin (45 * Real.pi / 180) * 100 := by
  have hpi := Real.pi_pos
  have hx0 : 0 ≤ Real.pi / 180 * a := by positivity
  have hxy : Real.pi / 180 * a ≤ 45 * Real.pi / 180 := by nlinarith
  have hy : 45 * Real.pi / 180 ≤ Real.pi / 2 := by linarith
  have hs : Real.sin (Real.pi / 180 * a) ≤ Real.sin (45 * Real.pi / 180) :=
    Real.sin_le_sin_of_le_of_le_pi_div_two (by linarith) hy hxy
  have hs0 : 0 ≤ Real.sin (45 * Real.pi / 180) :=
    Real.sin_nonneg_of_nonneg_of_le_pi (by positivity) (by linarith)
  exact mul_le_mul hs hk hk0 hs0

/-- C3. Bound on the initial vertical velocity: for every kick performed from a
state reachable from the initial state, the ball's initial `velocity.y` does
not exceed `sin(45 degrees)*100`, a number between 70.7 and 70.8. -/
theorem initial_vertical_velocity_bound (inputs : List (Input ℝ)) (inp : Input ℝ)
    (hs : (run ⟨Real.sin, Real.cos, Real.sqrt, Real.pi⟩ inputs init).currentState = STATE_AIMING)
    (hk : inp.keySpace = true) :
    (frame ⟨Real.sin, Real.cos, Real.sqrt, Real.pi⟩ inp
        (run ⟨Real.sin, Real.cos, Real.sqrt, Real.pi⟩ inputs init)).ball.velocity.y
      ≤ Real.sin (45 * Real.pi / 180) * 100 ∧
    707 / 10 < Real.sin (45 * Real.pi / 180) * 100 ∧
    Real.sin (45 * Real.pi / 180) * 100 < 708 / 10 := by
  refine ⟨?_, ?_, ?_⟩
  · rw [frame_aiming _ inp _ hs, stepAiming_pressed _ inp _ hk]
    obtain ⟨⟨h1, h2⟩, ⟨h3, h4⟩, -⟩ := aimControls_paramsInRange inp
      (updateTimer inp.dt (run ⟨Real.sin, Real.cos, Real.sqrt, Real.pi⟩ inputs init))
    exact sin_mul_le_of_range _ _ h3 h4 (by linarith) h2
  · have e : 45 * Real.pi / 180 = Real.pi / 4 := by ring
    rw [e, Real.sin_pi_div_four]
    have h : (1414 / 1000 : ℝ) < Real.sqrt 2 := by
      rw [Real.lt_sqrt (by norm_num)]; norm_num
    linarith
  · have e : 45 * Real.pi / 180 = Real.pi / 4 := by ring
    rw [e, Real.sin_pi_div_four]
    have h : Real.sqrt 2 < (1416 / 1000 : ℝ) := by
      rw [Real.sqrt_lt' (by norm_num)]; norm_num
    linarith

/-- Applying C3 to a kick in the very first frame. -/
theorem initial_vertical_velocity_bound_witness :
    (run ⟨Real.sin, Real.cos, Real.sqrt, Real.pi⟩ [] (init : Sim ℝ)).currentState = STATE_AIMING ∧
    (frame ⟨Real.sin, Real.cos, Real.sqrt, Real.pi⟩
        (⟨1 / 60, true, false, true, false, false, false, true, false⟩ : Input ℝ)
        (run ⟨Real.sin, Real.cos, Real.sqrt, Real.pi⟩ [] init)).ball.velocity.y
      ≤ Real.sin (45 * Real.pi / 180) * 100 :=
  ⟨rfl, (initial_vertical_velocity_bound []
    ⟨1 / 60, true, false, true, false, false, false, true, false⟩ rfl rfl).1⟩

end RealClaims2
section SimClaims
variable {F : Type} [LinearOrderedField F]

/-! ## Simulating frames -/

/-- The ball a kicked simulating frame leaves: integrated, then bounced. -/
theorem frame_simulating_ball (m : LibM F) (inp : Input F) (s : Sim F)
    (hs : s.currentState = STATE_SIMULATING) (hk : s.ball.isKicked = true) :
    (frame m inp s).ball = groundCollision (integrate m inp.dt s.ball) := by
  rw [frame_simulating_kicked m inp s hs hk, checks_ball]

theorem groundCollision_below (b : Ball F) (h : b.position.y < b.radius) :
    groundCollision b =
      { b with
        position := { b.position with y := b.radius }
        velocity := ⟨b.velocity.x * (9 / 10), b.velocity.y * -(7 / 10), b.velocity.z * (9 / 10)⟩
        angularVelocity := Vector3Scale b.angularVelocity (9 / 10) } := by
  unfold groundCollision; rw [if_pos h]

/-- C4. Ground bounce: in a kicked SIMULATING frame whose integrated position
has `y < radius`, the frame sets `position.y` to the radius (x and z stay the
integrated ones), multiplies the integrated `velocity.y` by -0.7, the
integrated `velocity.x` and `velocity.z` by 0.9 and the angular velocity by
0.9; so if the integrated velocity is `(0,-5,0)` the frame ends with
`position.y = radius` and `velocity.y = 3.5`. -/
theorem ground_bounce (m : LibM F) (inp : Input F) (s : Sim F)
    (hs : s.currentState = STATE_SIMULATING) (hk : s.ball.isKicked = true)
    (hy : (integrate m inp.dt s.ball).position.y < s.ball.radius) :
    (frame m inp s).ball.position =
      ⟨(integrate m inp.dt s.ball).position.x, s.ball.radius,
        (integrate m inp.dt s.ball).position.z⟩ ∧
    (frame m inp s).ball.velocity =
      ⟨(integrate m inp.dt s.ball).velocity.x * (9 / 10),
        (integrate m inp.dt s.ball).velocity.y * -(7 / 10),
        (integrate m inp.dt s.ball).velocity.z * (9 / 10)⟩ ∧
    (frame m inp s).ball.angularVelocity =
      ⟨s.ball.angularVelocity.x * (9 / 10), s.ball.angularVelocity.y * (9 / 10),
        s.ball.angularVelocity.z * (9 / 10)⟩ ∧
    ((integrate m inp.dt s.ball).velocity = ⟨0, -5, 0⟩ →
      (frame m inp s).ball.position.y = s.ball.radius ∧
      (frame m inp s).ball.velocity.y = 35 / 10) := by
  rw [frame_simulating_ball m inp s hs hk, groundCollision_below _ hy]
  refine ⟨rfl, rfl, rfl, ?_⟩
  intro hv
  refine ⟨rfl, ?_⟩
  simp only [hv]
  norm_num

end SimClaims
section SimClaims2
variable {F : Type} [LinearOrderedField F]

theorem goalBox_meets_iff (c : Vector3 F) (r : F) :
    CheckCollisionBoxSphere goalBox c r = true ↔ SphereMeetsBox ⟨⟨-5, 0, 24⟩, ⟨5, 4, 26⟩⟩ c r := by
  rw [goalBox_eq]
  exact checkCollision_iff_meets _ c r (by norm_num) (by norm_num) (by norm_num)

theorem stopped_iff (m : LibM F) (b : Ball F) :
    stopped m b = true ↔ (Vector3Length m b.velocity < 1 / 10 ∧ b.position.y ≤ b.radius + 1 / 100) := by
  unfold stopped; exact decide_eq_true_iff

theorem outOfBounds_iff (b : Ball F) :
    outOfBounds b = true ↔ (|b.position.x| > 50 ∨ b.position.z > 50) := by
  unfold outOfBounds; exact decide_eq_true_iff

/-- The state a kicked simulating frame ends in. -/
theorem frame_simulating_state (m : LibM F) (inp : Input F) (s : Sim F)
    (hs : s.currentState = STATE_SIMULATING) (hk : s.ball.isKicked = true) :
    (frame m inp s).currentState =
      if CheckCollisionBoxSphere goalBox (groundCollision (integrate m inp.dt s.ball)).position
            s.ball.radius = true
          ∨ stopped m (groundCollision (integrate m inp.dt s.ball)) = true
          ∨ outOfBounds (groundCollision (integrate m inp.dt s.ball)) = true
      then STATE_RESET else STATE_SIMULATING := by
  rw [frame_simulating_kicked m inp s hs hk, checks_currentState]
  simp only [groundCollision_radius, integrate_radius, updateTimer_currentState, hs]

/-- C5. Goal detection: in a kicked SIMULATING frame in which the ball's sphere
(centre the position after integration and ground response, radius the ball's
radius, 0.5 in every run) intersects the goal box with corners `(-5,0,24)` and
`(5,4,26)`, the frame ends in RESET with message "GOAL!!!" and timer 3,
whatever the stop and out-of-bounds conditions are. -/
theorem goal_detection (m : LibM F) (inp : Input F) (s : Sim F)
    (hs : s.currentState = STATE_SIMULATING) (hk : s.ball.isKicked = true)
    (hg : SphereMeetsBox ⟨⟨-5, 0, 24⟩, ⟨5, 4, 26⟩⟩
      (groundCollision (integrate m inp.dt s.ball)).position s.ball.radius) :
    (frame m inp s).currentState = STATE_RESET ∧
    (frame m inp s).goalMessage = "GOAL!!!" ∧
    (frame m inp s).messageTimer = 3 := by
  have hc := (goalBox_meets_iff _ _).mpr hg
  refine ⟨?_, ?_, ?_⟩
  · rw [frame_simulating_state m inp s hs hk, if_pos (Or.inl hc)]
  · rw [frame_simulating_kicked m inp s hs hk, checks_goalMessage]
    simp only [groundCollision_radius, integrate_radius]
    rw [if_pos hc]
  · rw [frame_simulating_kicked m inp s hs hk, checks_messageTimer]
    simp only [groundCollision_radius, integrate_radius]
    rw [if_pos hc]

/-- C6. Stop condition: in a kicked SIMULATING frame in which, after integration
and ground response, the speed is below 0.1 and `position.y <= radius + 0.01`,
the frame ends in RESET, whether or not the ball touches the goal box. -/
theorem stop_condition (m : LibM F) (inp : Input F) (s : Sim F)
    (hs : s.currentState = STATE_SIMULATING) (hk : s.ball.isKicked = true)
    (hv : Vector3Length m (groundCollision (integrate m inp.dt s.ball)).velocity < 1 / 10)
    (hy : (groundCollision (integrate m inp.dt s.ball)).position.y ≤ s.ball.radius + 1 / 100) :
    (frame m inp s).currentState = STATE_RESET := by
  rw [frame_simulating_state m inp s hs hk, if_pos]
  refine Or.inr (Or.inl ((stopped_iff m _).mpr ⟨hv, ?_⟩))
  simpa only [groundCollision_radius, integrate_radius] using hy

/-- C7. Reset: a frame processed in RESET with the reset key pressed ends in
AIMING with strength 50, angle 15, spin 0, the ball at `(0,0.5,0)` with zero
velocity, acceleration and angular velocity, `isKicked` false, radius and mass
unchanged; without the reset key the ball, the kick parameters and the state
are unchanged. -/
theorem reset_frame (m : LibM F) (inp : Input F) (s : Sim F)
    (hs : s.currentState = STATE_RESET) :
    (inp.keyEnter = true →
      (frame m inp s).currentState = STATE_AIMING ∧
      (frame m inp s).kickStrength = 50 ∧
      (frame m inp s).kickAngle = 15 ∧
      (frame m inp s).kickSpin = 0 ∧
      (frame m inp s).ball.position = ⟨0, 1 / 2, 0⟩ ∧
      (frame m inp s).ball.velocity = ⟨0, 0, 0⟩ ∧
      (frame m inp s).ball.acceleration = ⟨0, 0, 0⟩ ∧
      (frame m inp s).ball.angularVelocity = ⟨0, 0, 0⟩ ∧
      (frame m inp s).ball.isKicked = false ∧
      (frame m inp s).ball.radius = s.ball.radius ∧
      (frame m inp s).ball.mass = s.ball.mass) ∧
    (inp.keyEnter = false →
      (frame m inp s).ball = s.ball ∧
      (frame m inp s).kickStrength = s.kickStrength ∧
      (frame m inp s).kickAngle = s.kickAngle ∧
      (frame m inp s).kickSpin = s.kickSpin ∧
      (frame m inp s).currentState = s.currentState) := by
  rw [frame_reset m inp s hs]
  constructor
  · intro he
    unfold stepReset
    rw [if_pos he]
    simp only [updateTimer_ball, Vector3Zero, and_self]
  · intro he
    unfold stepReset
    rw [if_neg (by simp [he])]
    simp only [updateTimer_ball, updateTimer_kickStrength, updateTimer_kickAngle,
      updateTimer_kickSpin, updateTimer_currentState, and_self]

/-- An out-of-bounds centre is too far from the goal box for a sphere of radius 0.5. -/
theorem outOfBounds_not_goal (c : Vector3 F) (h : |c.x| > 50 ∨ c.z > 50) :
    CheckCollisionBoxSphere goalBox c (1 / 2) = false := by
  rw [← Bool.not_eq_true, goalBox_meets_iff]
  rintro ⟨p, ⟨hx1, hx2⟩, -, ⟨-, hz2⟩, hd⟩
  have hy0 : 0 ≤ (p.y - c.y) ^ 2 := sq_nonneg _
  have hx0 : 0 ≤ (p.x - c.x) ^ 2 := sq_nonneg _
  have hz0 : 0 ≤ (p.z - c.z) ^ 2 := sq_nonneg _
  simp only at hx1 hx2 hz2
  rcases h with h | h
  · rcases lt_abs.mp h with h | h
    · nlinarith
    · nlinarith
  · nlinarith

/-- C8. Out of bounds gives RESET with no message: in a kicked SIMULATING frame
(ball radius 0.5) whose updated position has `|x| > 50` or `z > 50`, the frame
ends in RESET, and the message and the timer are the ones the frame-start timer
update left: the goal test is false in that frame. -/
theorem out_of_bounds_no_message (m : LibM F) (inp : Input F) (s : Sim F)
    (hs : s.currentState = STATE_SIMULATING) (hk : s.ball.isKicked = true)
    (hr : s.ball.radius = 1 / 2)
    (ho : |(groundCollision (integrate m inp.dt s.ball)).position.x| > 50 ∨
          (groundCollision (integrate m inp.dt s.ball)).position.z > 50) :
    (frame m inp s).currentState = STATE_RESET ∧
    (frame m inp s).goalMessage = (updateTimer inp.dt s).goalMessage ∧
    (frame m inp s).messageTimer = (updateTimer inp.dt s).messageTimer ∧
    CheckCollisionBoxSphere goalBox (groundCollision (integrate m inp.dt s.ball)).position
      s.ball.radius = false := by
  have hc := outOfBounds_not_goal _ ho
  refine ⟨?_, ?_, ?_, ?_⟩
  · rw [frame_simulating_state m inp s hs hk, if_pos]
    exact Or.inr (Or.inr ((outOfBounds_iff _).mpr ho))
  · rw [frame_simulating_kicked m inp s hs hk, checks_goalMessage]
    simp only [groundCollision_radius, integrate_radius, hr, hc, Bool.false_eq_true, if_false]
  · rw [frame_simulating_kicked m inp s hs hk, checks_messageTimer]
    simp only [groundCollision_radius, integrate_radius, hr, hc, Bool.false_eq_true, if_false]
  · rw [hr]; exact hc

end SimClaims2
section SimClaims3
variable {F : Type} [LinearOrderedField F]

theorem stepReset_state (inp : Input F) (s : Sim F) :
    (stepReset inp s).currentState =
      if inp.keyEnter = true then STATE_AIMING else s.currentState := by
  unfold stepReset; split_ifs <;> rfl

/-- C9. State-machine shape: a frame started in AIMING ends in SIMULATING if the
kick key is pressed and in AIMING otherwise; a frame started in SIMULATING ends
in SIMULATING or RESET; a frame started in RESET ends in AIMING if the reset
key is pressed and in RESET otherwise.  So no frame goes AIMING to RESET,
SIMULATING to AIMING, or RESET to SIMULATING. -/
theorem state_machine_shape (m : LibM F) (inp : Input F) (s : Sim F) :
    (s.currentState = STATE_AIMING →
      (frame m inp s).currentState =
        if inp.keySpace = true then STATE_SIMULATING else STATE_AIMING) ∧
    (s.currentState = STATE_SIMULATING →
      (frame m inp s).currentState = STATE_SIMULATING ∨
      (frame m inp s).currentState = STATE_RESET) ∧
    (s.currentState = STATE_RESET →
      (frame m inp s).currentState =
        if inp.keyEnter = true then STATE_AIMING else STATE_RESET) ∧
    ¬ (s.currentState = STATE_AIMING ∧ (frame m inp s).currentState = STATE_RESET) ∧
    ¬ (s.currentState = STATE_SIMULATING ∧ (frame m inp s).currentState = STATE_AIMING) ∧
    ¬ (s.currentState = STATE_RESET ∧ (frame m inp s).currentState = STATE_SIMULATING) := by
  have ha : s.currentState = STATE_AIMING →
      (frame m inp s).currentState =
        if inp.keySpace = true then STATE_SIMULATING else STATE_AIMING := by
    intro hs
    rw [frame_aiming m inp s hs, stepAiming_state, updateTimer_currentState, hs]
  have hsim : s.currentState = STATE_SIMULATING →
      (frame m inp s).currentState = STATE_SIMULATING ∨
      (frame m inp s).currentState = STATE_RESET := by
    intro hs
    rw [frame_simulating m inp s hs]
    have h := stepSimulating_state m inp (updateTimer inp.dt s)
    rwa [updateTimer_currentState, hs] at h
  have hr : s.currentState = STATE_RESET →
      (frame m inp s).currentState =
        if inp.keyEnter = true then STATE_AIMING else STATE_RESET := by
    intro hs
    rw [frame_reset m inp s hs, stepReset_state, updateTimer_currentState, hs]
  refine ⟨ha, hsim, hr, ?_, ?_, ?_⟩
  · rintro ⟨hs, h⟩
    rw [ha hs] at h
    split_ifs at h
  · rintro ⟨hs, h⟩
    rcases hsim hs with h' | h' <;> rw [h'] at h <;> exact absurd h (by decide)
  · rintro ⟨hs, h⟩
    rw [hr hs] at h
    split_ifs at h

end SimClaims3
section Witnesses

/-- One step from rest over the reals: only gravity acts. -/
theorem integrate_from_rest (dt : ℝ) (p : Vector3 ℝ) :
    integrate ⟨Real.sin, Real.cos, Real.sqrt, Real.pi⟩ dt (kickedAt p ⟨0, 0, 0⟩).ball =
      { (kickedAt p ⟨0, 0, 0⟩).ball with
        acceleration := ⟨0, -(98 / 10), 0⟩
        velocity := ⟨0, -(98 / 10) * dt, 0⟩
        position := ⟨p.x, p.y + -(98 / 10) * dt * dt, p.z⟩ } := by
  simp [integrate, CalculateDragForce, CalculateMagnusForce, Vector3Length, Vector3Scale,
    Vector3Add, Vector3CrossProduct, Vector3Zero, gravity, kickedAt, init]
  norm_num

/-- Away from the ground the ground response changes nothing. -/
theorem groundCollision_above {F : Type} [LinearOrderedField F] (b : Ball F)
    (h : b.radius ≤ b.position.y) : groundCollision b = b := by
  unfold groundCollision; rw [if_neg (not_lt.mpr h)]

/-- Applying C4 to a ball released at rest on the ground with `dt = 25/49`: the
integrated velocity is `(0,-5,0)`, the integrated height is below the radius,
and the frame ends with `velocity.y = 3.5`. -/
theorem ground_bounce_witness :
    (integrate ⟨Real.sin, Real.cos, Real.sqrt, Real.pi⟩ (25 / 49)
        (kickedAt ⟨0, 1 / 2, 0⟩ ⟨0, 0, 0⟩).ball).velocity = ⟨0, -5, 0⟩ ∧
    (frame ⟨Real.sin, Real.cos, Real.sqrt, Real.pi⟩
        (⟨25 / 49, false, false, false, false, false, false, false, false⟩ : Input ℝ)
        (kickedAt ⟨0, 1 / 2, 0⟩ ⟨0, 0, 0⟩)).ball.velocity.y = 35 / 10 := by
  have hv : (integrate ⟨Real.sin, Real.cos, Real.sqrt, Real.pi⟩ (25 / 49)
      (kickedAt ⟨0, 1 / 2, 0⟩ ⟨0, 0, 0⟩).ball).velocity = ⟨0, -5, 0⟩ := by
    rw [integrate_from_rest]; norm_num
  exact ⟨hv, ((ground_bounce ⟨Real.sin, Real.cos, Real.sqrt, Real.pi⟩
    (⟨25 / 49, false, false, false, false, false, false, false, false⟩ : Input ℝ)
    (kickedAt ⟨0, 1 / 2, 0⟩ ⟨0, 0, 0⟩) rfl rfl
    (by rw [integrate_from_rest]; norm_num [kickedAt, init])).2.2.2 hv).2⟩

/-- Applying C5 to a ball released inside the goal mouth. -/
theorem goal_detection_witness :
    (frame ⟨Real.sin, Real.cos, Real.sqrt, Real.pi⟩
        (⟨1 / 10, false, false, false, false, false, false, false, false⟩ : Input ℝ)
        (kickedAt ⟨0, 2, 25⟩ ⟨0, 0, 0⟩)).goalMessage = "GOAL!!!" :=
  (goal_detection ⟨Real.sin, Real.cos, Real.sqrt, Real.pi⟩
    (⟨1 / 10, false, false, false, false, false, false, false, false⟩ : Input ℝ)
    (kickedAt ⟨0, 2, 25⟩ ⟨0, 0, 0⟩) rfl rfl
    (by
      rw [integrate_from_rest, groundCollision_above _ (by norm_num [kickedAt, init])]
      exact ⟨⟨0, 2, 25⟩, by norm_num [kickedAt, init]⟩)).2.1

end Witnesses
section Witnesses2

/-- Applying C6 to a ball released at rest on the ground for a hundredth of a
second: it rebounds at 0.0686 and the round ends. -/
theorem stop_condition_witness :
    (frame ⟨Real.sin, Real.cos, Real.sqrt, Real.pi⟩
        (⟨1 / 100, false, false, false, false, false, false, false, false⟩ : Input ℝ)
        (kickedAt ⟨0, 1 / 2, 0⟩ ⟨0, 0, 0⟩)).currentState = STATE_RESET := by
  have hb : groundCollision (integrate ⟨Real.sin, Real.cos, Real.sqrt, Real.pi⟩ (1 / 100)
      (kickedAt ⟨0, 1 / 2, 0⟩ ⟨0, 0, 0⟩).ball)
      = { (kickedAt ⟨0, 1 / 2, 0⟩ ⟨0, 0, 0⟩).ball with
          acceleration := ⟨0, -(98 / 10), 0⟩
          velocity := ⟨0, 686 / 10000, 0⟩
          position := ⟨0, 1 / 2, 0⟩ } := by
    rw [integrate_from_rest, groundCollision_below _ (by norm_num [kickedAt, init])]
    norm_num [kickedAt, init, Vector3Scale]
  refine stop_condition ⟨Real.sin, Real.cos, Real.sqrt, Real.pi⟩
    (⟨1 / 100, false, false, false, false, false, false, false, false⟩ : Input ℝ)
    (kickedAt ⟨0, 1 / 2, 0⟩ ⟨0, 0, 0⟩) rfl rfl ?_ ?_
  · rw [hb]
    simp only [Vector3Length]
    rw [Real.sqrt_lt' (by norm_num)]
    norm_num
  · rw [hb]
    norm_num [kickedAt, init]

/-- Applying C7 to the initial state put in RESET, with the reset key pressed. -/
theorem reset_frame_witness :
    (frame ⟨Real.sin, Real.cos, Real.sqrt, Real.pi⟩
        (⟨1 / 60, false, false, false, false, false, false, false, true⟩ : Input ℝ)
        { (kickedAt ⟨3, 1 / 2, 40⟩ ⟨0, 0, 0⟩) with currentState := STATE_RESET }).currentState
      = STATE_AIMING :=
  ((reset_frame ⟨Real.sin, Real.cos, Real.sqrt, Real.pi⟩
    (⟨1 / 60, false, false, false, false, false, false, false, true⟩ : Input ℝ)
    { (kickedAt ⟨3, 1 / 2, 40⟩ ⟨0, 0, 0⟩) with currentState := STATE_RESET } rfl).1 rfl).1

/-- Applying C8 to a ball released beside the pitch at `x = 60`. -/
theorem out_of_bounds_no_message_witness :
    (frame ⟨Real.sin, Real.cos, Real.sqrt, Real.pi⟩
        (⟨1 / 100, false, false, false, false, false, false, false, false⟩ : Input ℝ)
        (kickedAt ⟨60, 2, 0⟩ ⟨0, 0, 0⟩)).currentState = STATE_RESET :=
  (out_of_bounds_no_message ⟨Real.sin, Real.cos, Real.sqrt, Real.pi⟩
    (⟨1 / 100, false, false, false, false, false, false, false, false⟩ : Input ℝ)
    (kickedAt ⟨60, 2, 0⟩ ⟨0, 0, 0⟩) rfl rfl rfl
    (by
      rw [integrate_from_rest, groundCollision_above _ (by norm_num [kickedAt, init])]
      left
      norm_num [kickedAt, init])).1

/-- Applying C9 to the initial state with the kick key pressed. -/
theorem state_machine_shape_witness :
    (frame ⟨Real.sin, Real.cos, Real.sqrt, Real.pi⟩
        (⟨1 / 60, false, false, false, false, false, false, true, false⟩ : Input ℝ)
        init).currentState = STATE_SIMULATING :=
  (state_machine_shape ⟨Real.sin, Real.cos, Real.sqrt, Real.pi⟩
    (⟨1 / 60, false, false, false, false, false, false, true, false⟩ : Input ℝ) init).1 rfl

end Witnesses2
section Integration
variable {F : Type} [LinearOrderedField F]

/-! ## The integration step -/

@[simp] theorem groundCollision_acceleration (b : Ball F) :
    (groundCollision b).acceleration = b.acceleration := by
  unfold groundCollision; split_ifs <;> rfl

@[simp] theorem groundCollision_isKicked (b : Ball F) :
    (groundCollision b).isKicked = b.isKicked := by
  unfold groundCollision; split_ifs <;> rfl

@[simp] theorem integrate_isKicked (m : LibM F) (dt : F) (b : Ball F) :
    (integrate m dt b).isKicked = b.isKicked := rfl

/-- The acceleration the code stores is the spec's formula. -/
theorem integrate_acceleration (m : LibM F) (dt : F) (b : Ball F) :
    (integrate m dt b).acceleration = specAcceleration m b := by
  simp only [integrate, specAcceleration, Vector3Scale, Vector3Add, CalculateMagnusForce,
    Vector3CrossProduct, gravity]
  congr 1 <;> ring

/-- Semi-implicit Euler: the new velocity from the new acceleration. -/
theorem integrate_velocity (m : LibM F) (dt : F) (b : Ball F) :
    (integrate m dt b).velocity =
      ⟨b.velocity.x + (specAcceleration m b).x * dt,
       b.velocity.y + (specAcceleration m b).y * dt,
       b.velocity.z + (specAcceleration m b).z * dt⟩ := by
  rw [← integrate_acceleration m dt b]; rfl

/-- Semi-implicit Euler: the new position from the new velocity. -/
theorem integrate_position (m : LibM F) (dt : F) (b : Ball F) :
    (integrate m dt b).position =
      ⟨b.position.x + (b.velocity.x + (specAcceleration m b).x * dt) * dt,
       b.position.y + (b.velocity.y + (specAcceleration m b).y * dt) * dt,
       b.position.z + (b.velocity.z + (specAcceleration m b).z * dt) * dt⟩ := by
  rw [← integrate_acceleration m dt b]; rfl

/-- C11. Integration step: in every kicked SIMULATING frame the stored
acceleration is `a = (mass*g + 0.05*(angularVelocity x velocity) + F_drag)/mass`
with `g = (0,-9.8,0)`, the integrated velocity is `v' = v + a*dt`, the
integrated position is `p' = p + v'*dt` (with the updated velocity), and when
`p'.y >= radius` these are the ball's velocity and position at the end of the
frame. -/
theorem integration_step (m : LibM F) (inp : Input F) (s : Sim F)
    (hs : s.currentState = STATE_SIMULATING) (hk : s.ball.isKicked = true) :
    (frame m inp s).ball.acceleration = specAcceleration m s.ball ∧
    (integrate m inp.dt s.ball).velocity =
      ⟨s.ball.velocity.x + (specAcceleration m s.ball).x * inp.dt,
       s.ball.velocity.y + (specAcceleration m s.ball).y * inp.dt,
       s.ball.velocity.z + (specAcceleration m s.ball).z * inp.dt⟩ ∧
    (integrate m inp.dt s.ball).position =
      ⟨s.ball.position.x + (s.ball.velocity.x + (specAcceleration m s.ball).x * inp.dt) * inp.dt,
       s.ball.position.y + (s.ball.velocity.y + (specAcceleration m s.ball).y * inp.dt) * inp.dt,
       s.ball.position.z + (s.ball.velocity.z + (specAcceleration m s.ball).z * inp.dt) * inp.dt⟩ ∧
    (s.ball.radius ≤
        s.ball.position.y + (s.ball.velocity.y + (specAcceleration m s.ball).y * inp.dt) * inp.dt →
      (frame m inp s).ball.velocity =
        ⟨s.ball.velocity.x + (specAcceleration m s.ball).x * inp.dt,
         s.ball.velocity.y + (specAcceleration m s.ball).y * inp.dt,
         s.ball.velocity.z + (specAcceleration m s.ball).z * inp.dt⟩ ∧
      (frame m inp s).ball.position =
        ⟨s.ball.position.x + (s.ball.velocity.x + (specAcceleration m s.ball).x * inp.dt) * inp.dt,
         s.ball.position.y + (s.ball.velocity.y + (specAcceleration m s.ball).y * inp.dt) * inp.dt,
         s.ball.position.z
           + (s.ball.velocity.z + (specAcceleration m s.ball).z * inp.dt) * inp.dt⟩) := by
  refine ⟨?_, integrate_velocity m inp.dt s.ball, integrate_position m inp.dt s.ball, ?_⟩
  · rw [frame_simulating_ball m inp s hs hk, groundCollision_acceleration,
      integrate_acceleration]
  · intro hy
    have hy' : (integrate m inp.dt s.ball).radius ≤ (integrate m inp.dt s.ball).position.y := by
      rw [integrate_position, integrate_radius]; exact hy
    rw [frame_simulating_ball m inp s hs hk, groundCollision_above _ hy']
    exact ⟨integrate_velocity m inp.dt s.ball, integrate_position m inp.dt s.ball⟩

end Integration
section Witness11

/-- The drag on a ball flying at 10 along `z`: magnitude `0.01*10^2 = 1`, along `-z`. -/
theorem drag_along_z (p : Vector3 ℝ) :
    CalculateDragForce ⟨Real.sin, Real.cos, Real.sqrt, Real.pi⟩ (kickedAt p ⟨0, 0, 10⟩).ball
      = ⟨0, 0, -1⟩ := by
  have h10 : Real.sqrt (0 * 0 + 0 * 0 + 10 * 10) = 10 := by
    rw [show (0 * 0 + 0 * 0 + 10 * 10 : ℝ) = 10 ^ 2 by norm_num]
    exact Real.sqrt_sq (by norm_num)
  have h10' : Real.sqrt (-0 * -0 + -0 * -0 + -10 * -10) = 10 := by
    rw [show (-0 * -0 + -0 * -0 + -10 * -10 : ℝ) = 10 ^ 2 by norm_num]
    exact Real.sqrt_sq (by norm_num)
  simp only [CalculateDragForce, Vector3Length, Vector3Normalize, Vector3Negate, Vector3Scale,
    kickedAt, init, h10, h10']
  norm_num

/-- Applying C11 to a ball flying at 10 along `z` from height 2, for a tenth
of a second: the stored acceleration is gravity plus the drag deceleration
`1/0.45 = 20/9`. -/
theorem integration_step_witness :
    (frame ⟨Real.sin, Real.cos, Real.sqrt, Real.pi⟩
        (⟨1 / 10, false, false, false, false, false, false, false, false⟩ : Input ℝ)
        (kickedAt ⟨0, 2, 0⟩ ⟨0, 0, 10⟩)).ball.acceleration = ⟨0, -(98 / 10), -(20 / 9)⟩ := by
  rw [(integration_step ⟨Real.sin, Real.cos, Real.sqrt, Real.pi⟩
    (⟨1 / 10, false, false, false, false, false, false, false, false⟩ : Input ℝ)
    (kickedAt ⟨0, 2, 0⟩ ⟨0, 0, 10⟩) rfl rfl).1]
  simp only [specAcceleration, drag_along_z]
  norm_num [kickedAt, init]

end Witness11
section Drag

/-! ## The drag force over the reals -/

theorem sumsq_nonneg (v : Vector3 ℝ) : 0 ≤ v.x * v.x + v.y * v.y + v.z * v.z := by
  nlinarith [mul_self_nonneg v.x, mul_self_nonneg v.y, mul_self_nonneg v.z]

theorem length_nonneg (v : Vector3 ℝ) :
    0 ≤ Vector3Length ⟨Real.sin, Real.cos, Real.sqrt, Real.pi⟩ v := by
  simp only [Vector3Length]
  exact Real.sqrt_nonneg _

theorem length_negate (v : Vector3 ℝ) :
    Vector3Length ⟨Real.sin, Real.cos, Real.sqrt, Real.pi⟩ (Vector3Negate v)
      = Vector3Length ⟨Real.sin, Real.cos, Real.sqrt, Real.pi⟩ v := by
  simp only [Vector3Length, Vector3Negate, neg_mul_neg]

theorem length_zero : Vector3Length ⟨Real.sin, Real.cos, Real.sqrt, Real.pi⟩ (⟨0, 0, 0⟩ : Vector3 ℝ) = 0 := by
  simp [Vector3Length]

theorem length_pos_of_ne_zero (v : Vector3 ℝ) (h : v ≠ ⟨0, 0, 0⟩) :
    0 < Vector3Length ⟨Real.sin, Real.cos, Real.sqrt, Real.pi⟩ v := by
  simp only [Vector3Length]
  apply Real.sqrt_pos.mpr
  rcases lt_or_eq_of_le (sumsq_nonneg v) with h0 | h0
  · exact h0
  · exfalso
    apply h
    have hx : v.x = 0 := by nlinarith [mul_self_nonneg v.x, mul_self_nonneg v.y, mul_self_nonneg v.z]
    have hy : v.y = 0 := by nlinarith [mul_self_nonneg v.x, mul_self_nonneg v.y, mul_self_nonneg v.z]
    have hz : v.z = 0 := by nlinarith [mul_self_nonneg v.x, mul_self_nonneg v.y, mul_self_nonneg v.z]
    cases v
    simp only at hx hy hz
    rw [hx, hy, hz]

/-- The guarded normalisation when the length is not zero. -/
theorem normalize_of_length_ne_zero {F : Type} [LinearOrderedField F] (m : LibM F)
    (v : Vector3 F) (h : Vector3Length m v ≠ 0) :
    Vector3Normalize m v = Vector3Scale v (1 / Vector3Length m v) :=
  if_pos h

/-- The drag when the speed is positive. -/
theorem drag_of_speed_pos {F : Type} [LinearOrderedField F] (m : LibM F) (b : Ball F)
    (h : Vector3Length m b.velocity > 0) :
    CalculateDragForce m b =
      Vector3Scale (Vector3Normalize m (Vector3Negate b.velocity))
        (1 / 100 * Vector3Length m b.velocity * Vector3Length m b.velocity) :=
  if_pos h

/-- For a non-zero velocity the drag is the velocity scaled by `-0.01*|v|`. -/
theorem drag_eq_scale (b : Ball ℝ) (h : b.velocity ≠ ⟨0, 0, 0⟩) :
    CalculateDragForce ⟨Real.sin, Real.cos, Real.sqrt, Real.pi⟩ b
      = Vector3Scale b.velocity
          (-(1 / 100) * Vector3Length ⟨Real.sin, Real.cos, Real.sqrt, Real.pi⟩ b.velocity) := by
  have hp := length_pos_of_ne_zero b.velocity h
  rw [drag_of_speed_pos _ b hp,
    normalize_of_length_ne_zero _ _ (by rw [length_negate]; exact hp.ne'), length_negate]
  generalize Vector3Length ⟨Real.sin, Real.cos, Real.sqrt, Real.pi⟩ b.velocity = L at hp
  simp only [Vector3Scale, Vector3Negate]
  congr 1 <;> field_simp <;> ring

end Drag
section Message
variable {F : Type} [LinearOrderedField F]

/-! ## The goal message and its timer -/

theorem stepAiming_goalMessage (m : LibM F) (inp : Input F) (s : Sim F) :
    (stepAiming m inp s).goalMessage = s.goalMessage := by
  unfold stepAiming; split_ifs <;> rfl

theorem stepAiming_messageTimer (m : LibM F) (inp : Input F) (s : Sim F) :
    (stepAiming m inp s).messageTimer = s.messageTimer := by
  unfold stepAiming; split_ifs <;> rfl

theorem stepReset_goalMessage (inp : Input F) (s : Sim F) :
    (stepReset inp s).goalMessage = s.goalMessage := by
  unfold stepReset; split_ifs <;> rfl

theorem stepReset_messageTimer (inp : Input F) (s : Sim F) :
    (stepReset inp s).messageTimer = s.messageTimer := by
  unfold stepReset; split_ifs <;> rfl

theorem goalDetected_eq_true_iff (m : LibM F) (inp : Input F) (s : Sim F) :
    goalDetected m inp s = true ↔
      s.currentState = STATE_SIMULATING ∧ s.ball.isKicked = true ∧
      CheckCollisionBoxSphere goalBox
        (groundCollision (integrate m inp.dt s.ball)).position s.ball.radius = true := by
  unfold goalDetected
  simp only [Bool.and_eq_true, decide_eq_true_eq, and_assoc]

/-- The message a frame leaves: "GOAL!!!" if a goal is detected in it, otherwise
what the frame-start timer update left. -/
theorem frame_goalMessage (m : LibM F) (inp : Input F) (s : Sim F) :
    (frame m inp s).goalMessage =
      if goalDetected m inp s = true then "GOAL!!!" else (updateTimer inp.dt s).goalMessage := by
  cases hs : s.currentState
  · rw [frame_aiming m inp s hs, stepAiming_goalMessage, if_neg]
    rw [goalDetected_eq_true_iff, hs]; rintro ⟨h, -⟩; exact absurd h (by decide)
  · by_cases hk : s.ball.isKicked = true
    · rw [frame_simulating_kicked m inp s hs hk, checks_goalMessage]
      simp only [groundCollision_radius, integrate_radius, goalDetected_eq_true_iff, hs, hk,
        true_and]
    · rw [frame_simulating m inp s hs, if_neg]
      · unfold stepSimulating; rw [if_neg (by rw [updateTimer_ball]; exact hk)]
      · rw [goalDetected_eq_true_iff]; rintro ⟨-, h, -⟩; exact hk h
  · rw [frame_reset m inp s hs, stepReset_goalMessage, if_neg]
    rw [goalDetected_eq_true_iff, hs]; rintro ⟨h, -⟩; exact absurd h (by decide)

/-- The timer a frame leaves: 3 if a goal is detected in it, otherwise what the
frame-start timer update left. -/
theorem frame_messageTimer (m : LibM F) (inp : Input F) (s : Sim F) :
    (frame m inp s).messageTimer =
      if goalDetected m inp s = true then 3 else (updateTimer inp.dt s).messageTimer := by
  cases hs : s.currentState
  · rw [frame_aiming m inp s hs, stepAiming_messageTimer, if_neg]
    rw [goalDetected_eq_true_iff, hs]; rintro ⟨h, -⟩; exact absurd h (by decide)
  · by_cases hk : s.ball.isKicked = true
    · rw [frame_simulating_kicked m inp s hs hk, checks_messageTimer]
      simp only [groundCollision_radius, integrate_radius, goalDetected_eq_true_iff, hs, hk,
        true_and]
    · rw [frame_simulating m inp s hs, if_neg]
      · unfold stepSimulating; rw [if_neg (by rw [updateTimer_ball]; exact hk)]
      · rw [goalDetected_eq_true_iff]; rintro ⟨-, h, -⟩; exact hk h
  · rw [frame_reset m inp s hs, stepReset_messageTimer, if_neg]
    rw [goalDetected_eq_true_iff, hs]; rintro ⟨h, -⟩; exact absurd h (by decide)

theorem updateTimer_of_pos (dt : F) (s : Sim F) (h : s.messageTimer > 0) :
    updateTimer dt s = { s with messageTimer := s.messageTimer - dt } := if_pos h

theorem updateTimer_of_not_pos (dt : F) (s : Sim F) (h : s.messageTimer ≤ 0) :
    updateTimer dt s = { s with goalMessage := "" } := if_neg (not_lt.mpr h)

/-- C13 (amended). Message clearing: for every frame that begins with
`messageTimer <= 0` and in which no goal is detected, `goalMessage` is empty at
the end of the frame; for every frame that begins with `messageTimer > 0` the
frame-start update decreases the timer by exactly `dt` and does not clear the
message, and at the end of the frame the timer is the start value minus `dt`
and the message is unchanged when no goal is detected in the frame, while they
are 3 and "GOAL!!!" when a goal is detected. -/
theorem message_clearing (m : LibM F) (inp : Input F) (s : Sim F) :
    (s.messageTimer ≤ 0 → goalDetected m inp s = false → (frame m inp s).goalMessage = "") ∧
    (s.messageTimer > 0 →
      (updateTimer inp.dt s).messageTimer = s.messageTimer - inp.dt ∧
      (updateTimer inp.dt s).goalMessage = s.goalMessage ∧
      (goalDetected m inp s = false →
        (frame m inp s).messageTimer = s.messageTimer - inp.dt ∧
        (frame m inp s).goalMessage = s.goalMessage) ∧
      (goalDetected m inp s = true →
        (frame m inp s).messageTimer = 3 ∧ (frame m inp s).goalMessage = "GOAL!!!")) := by
  constructor
  · intro ht hg
    rw [frame_goalMessage, hg, updateTimer_of_not_pos _ _ ht]
    rfl
  · intro ht
    rw [frame_goalMessage, frame_messageTimer, updateTimer_of_pos _ _ ht]
    refine ⟨rfl, rfl, ?_, ?_⟩
    · intro hg; rw [hg]; exact ⟨rfl, rfl⟩
    · intro hg; rw [hg]; exact ⟨rfl, rfl⟩

end Message
section Params
variable {F : Type} [LinearOrderedField F]

/-! ## Kick parameters outside AIMING -/

theorem stepReset_params (inp : Input F) (s : Sim F) :
    (inp.keyEnter = true →
      (stepReset inp s).kickStrength = 50 ∧ (stepReset inp s).kickAngle = 15 ∧
      (stepReset inp s).kickSpin = 0) ∧
    (inp.keyEnter = false →
      (stepReset inp s).kickStrength = s.kickStrength ∧
      (stepReset inp s).kickAngle = s.kickAngle ∧
      (stepReset inp s).kickSpin = s.kickSpin) := by
  unfold stepReset
  constructor
  · intro h; rw [if_pos h]; exact ⟨rfl, rfl, rfl⟩
  · intro h; rw [if_neg (by simp [h])]; exact ⟨rfl, rfl, rfl⟩

/-- C14 (amended). Kick parameters outside AIMING: a frame processed in
SIMULATING, with any `dt` and any keys, and a frame processed in RESET in which
the reset key is not pressed, leave `kickStrength`, `kickAngle` and `kickSpin`
as they were; a frame processed in RESET with the reset key pressed sets them
to 50, 15 and 0. -/
theorem kick_parameters_outside_aiming (m : LibM F) (inp : Input F) (s : Sim F) :
    (s.currentState = STATE_SIMULATING →
      (frame m inp s).kickStrength = s.kickStrength ∧
      (frame m inp s).kickAngle = s.kickAngle ∧
      (frame m inp s).kickSpin = s.kickSpin) ∧
    (s.currentState = STATE_RESET → inp.keyEnter = false →
      (frame m inp s).kickStrength = s.kickStrength ∧
      (frame m inp s).kickAngle = s.kickAngle ∧
      (frame m inp s).kickSpin = s.kickSpin) ∧
    (s.currentState = STATE_RESET → inp.keyEnter = true →
      (frame m inp s).kickStrength = 50 ∧
      (frame m inp s).kickAngle = 15 ∧
      (frame m inp s).kickSpin = 0) := by
  refine ⟨?_, ?_, ?_⟩
  · intro hs
    rw [frame_simulating m inp s hs, stepSimulating_kickStrength, stepSimulating_kickAngle,
      stepSimulating_kickSpin, updateTimer_kickStrength, updateTimer_kickAngle,
      updateTimer_kickSpin]
    exact ⟨rfl, rfl, rfl⟩
  · intro hs he
    rw [frame_reset m inp s hs]
    have h := (stepReset_params inp (updateTimer inp.dt s)).2 he
    rwa [updateTimer_kickStrength, updateTimer_kickAngle, updateTimer_kickSpin] at h
  · intro hs he
    rw [frame_reset m inp s hs]
    exact (stepReset_params inp (updateTimer inp.dt s)).1 he

end Params
section Trace

theorem aimControls_eta {F : Type} [LinearOrderedField F] (inp : Input F) (s : Sim F) :
    aimControls inp s =
      { s with kickStrength := (aimControls inp s).kickStrength
               kickAngle := (aimControls inp s).kickAngle
               kickSpin := (aimControls inp s).kickSpin } := rfl

theorem integrate_eta {F : Type} [LinearOrderedField F] (m : LibM F) (dt : F) (b : Ball F) :
    integrate m dt b =
      { b with acceleration := (integrate m dt b).acceleration
               velocity := (integrate m dt b).velocity
               position := (integrate m dt b).position } := rfl

theorem updateTimer_init {F : Type} [LinearOrderedField F] (dt : F) :
    updateTimer dt (init : Sim F) = init := by
  rw [updateTimer_of_not_pos _ _ (le_refl _)]; rfl

theorem updateTimer_inPlay {F : Type} [LinearOrderedField F] (dt : F)
    (p v a : Vector3 F) (k g : F) (st : GameState) :
    updateTimer dt (inPlay p v a k g st) = inPlay p v a k g st := by
  rw [updateTimer_of_not_pos _ _ (le_refl _)]; rfl

/-- When none of the three tests is true the checks change nothing. -/
theorem checks_of_none {F : Type} [LinearOrderedField F] (m : LibM F) (s : Sim F)
    (h1 : CheckCollisionBoxSphere goalBox s.ball.position s.ball.radius = false)
    (h2 : stopped m s.ball = false) (h3 : outOfBounds s.ball = false) :
    checks m s = s := by
  unfold checks
  simp only [h1, h2, h3, Bool.false_eq_true, if_false]

/-- When only the stopped test is true the checks set the state to RESET. -/
theorem checks_of_stopped {F : Type} [LinearOrderedField F] (m : LibM F) (s : Sim F)
    (h1 : CheckCollisionBoxSphere goalBox s.ball.position s.ball.radius = false)
    (h2 : stopped m s.ball = true) (h3 : outOfBounds s.ball = false) :
    checks m s = { s with currentState := STATE_RESET } := by
  unfold checks
  simp only [h1, h2, h3, Bool.false_eq_true, if_false, if_true]

/-- The goal test is false at the spawn point. -/
theorem no_goal_at_spawn {F : Type} [LinearOrderedField F] :
    CheckCollisionBoxSphere goalBox (⟨0, 1 / 2, 0⟩ : Vector3 F) (1 / 2) = false := by
  rw [checkCollision_eq, goalBox_eq]
  norm_num

/-- Holding UP and S for five seconds from the initial state: strength 100, angle 0. -/
theorem trace_aim :
    aimControls (⟨5, true, false, false, true, false, false, true, false⟩ : Input ℝ) init
      = { (init : Sim ℝ) with kickStrength := 100, kickAngle := 0 } := by
  have hS : (aimControls (⟨5, true, false, false, true, false, false, true, false⟩ : Input ℝ)
      init).kickStrength = 100 := by
    rw [aimControls_kickStrength]; norm_num [init]
  have hA : (aimControls (⟨5, true, false, false, true, false, false, true, false⟩ : Input ℝ)
      init).kickAngle = 0 := by
    rw [aimControls_kickAngle]; norm_num [init]
  have hP : (aimControls (⟨5, true, false, false, true, false, false, true, false⟩ : Input ℝ)
      init).kickSpin = 0 := by
    rw [aimControls_kickSpin]; norm_num [init]
  refine (aimControls_eta _ _).trans ?_
  rw [hS, hA, hP]
  rfl

/-- Frame 1 of the trace: UP and S held for five seconds and SPACE pressed. The
ball is kicked along `z` at speed 100. -/
theorem trace_frame1 :
    frame ⟨Real.sin, Real.cos, Real.sqrt, Real.pi⟩
      (⟨5, true, false, false, true, false, false, true, false⟩ : Input ℝ) init
    = inPlay ⟨0, 1 / 2, 0⟩ ⟨0, 0, 100⟩ ⟨0, 0, 0⟩ 100 0 STATE_SIMULATING := by
  rw [frame_aiming _ _ _ rfl, stepAiming_pressed _ _ _ rfl]
  simp only [updateTimer_init]
  rw [trace_aim]
  simp [kickBall, DEG2RAD, inPlay, init]

/-- The drag on a ball moving along `z` at speed `c > 0`. -/
theorem drag_z (b : Ball ℝ) (c : ℝ) (hc : 0 < c) (hv : b.velocity = ⟨0, 0, c⟩) :
    CalculateDragForce ⟨Real.sin, Real.cos, Real.sqrt, Real.pi⟩ b = ⟨0, 0, -(c * c / 100)⟩ := by
  have hL : Vector3Length ⟨Real.sin, Real.cos, Real.sqrt, Real.pi⟩ b.velocity = c := by
    rw [hv]; simp only [Vector3Length]
    rw [show (0 * 0 + 0 * 0 + c * c : ℝ) = c ^ 2 by ring]
    exact Real.sqrt_sq hc.le
  rw [drag_eq_scale b (by rw [hv]; intro h; injection h with _ _ h3; linarith), hL, hv]
  simp only [Vector3Scale]
  congr 1 <;> ring

/-- The drag on a ball moving along `y` at speed `c > 0`. -/
theorem drag_y (b : Ball ℝ) (c : ℝ) (hc : 0 < c) (hv : b.velocity = ⟨0, c, 0⟩) :
    CalculateDragForce ⟨Real.sin, Real.cos, Real.sqrt, Real.pi⟩ b = ⟨0, -(c * c / 100), 0⟩ := by
  have hL : Vector3Length ⟨Real.sin, Real.cos, Real.sqrt, Real.pi⟩ b.velocity = c := by
    rw [hv]; simp only [Vector3Length]
    rw [show (0 * 0 + c * c + 0 * 0 : ℝ) = c ^ 2 by ring]
    exact Real.sqrt_sq hc.le
  rw [drag_eq_scale b (by rw [hv]; intro h; injection h with _ h2 _; linarith), hL, hv]
  simp only [Vector3Scale]
  congr 1 <;> ring

/-- Frame 2 of the trace, `dt = 9/20`: drag stops the forward motion, the ball
drops below the ground and bounces up at 3.087. -/
theorem trace_frame2 :
    frame ⟨Real.sin, Real.cos, Real.sqrt, Real.pi⟩
      (⟨9 / 20, false, false, false, false, false, false, false, false⟩ : Input ℝ)
      (inPlay ⟨0, 1 / 2, 0⟩ ⟨0, 0, 100⟩ ⟨0, 0, 0⟩ 100 0 STATE_SIMULATING)
    = inPlay ⟨0, 1 / 2, 0⟩ ⟨0, 3087 / 1000, 0⟩ ⟨0, -(98 / 10), -(2000 / 9)⟩ 100 0
        STATE_SIMULATING := by
  have hI : integrate ⟨Real.sin, Real.cos, Real.sqrt, Real.pi⟩ (9 / 20)
      (inPlay (⟨0, 1 / 2, 0⟩ : Vector3 ℝ) ⟨0, 0, 100⟩ ⟨0, 0, 0⟩ 100 0 STATE_SIMULATING).ball
      = { (inPlay (⟨0, 1 / 2, 0⟩ : Vector3 ℝ) ⟨0, 0, 100⟩ ⟨0, 0, 0⟩ 100 0 STATE_SIMULATING).ball with
          acceleration := ⟨0, -(98 / 10), -(2000 / 9)⟩
          velocity := ⟨0, -(441 / 100), 0⟩
          position := ⟨0, 1 / 2 - 441 / 100 * (9 / 20), 0⟩ } := by
    have hD : CalculateDragForce ⟨Real.sin, Real.cos, Real.sqrt, Real.pi⟩
        (inPlay (⟨0, 1 / 2, 0⟩ : Vector3 ℝ) ⟨0, 0, 100⟩ ⟨0, 0, 0⟩ 100 0 STATE_SIMULATING).ball
        = ⟨0, 0, -(100 * 100 / 100)⟩ := drag_z _ 100 (by norm_num) rfl
    refine (integrate_eta _ _ _).trans ?_
    rw [integrate_acceleration, integrate_velocity, integrate_position]
    simp only [specAcceleration, hD]
    norm_num [inPlay, init]
  rw [frame_simulating_kicked _ _ _ rfl rfl, updateTimer_inPlay, hI,
    groundCollision_below _ (by norm_num [inPlay, init])]
  rw [checks_of_none]
  · norm_num [inPlay, init, Vector3Scale]
  · exact no_goal_at_spawn
  · rw [← Bool.not_eq_true, stopped_iff]
    rintro ⟨h, -⟩
    simp only [Vector3Length] at h
    rw [Real.sqrt_lt' (by norm_num)] at h
    norm_num at h
  · rw [← Bool.not_eq_true, outOfBounds_iff]
    norm_num

/-- Frame 3 of the trace, `dt = 315000/1021609`: gravity and drag bring the
rebound to rest exactly, the ball is on the ground, and the stopped check ends
the round. -/
theorem trace_frame3 :
    frame ⟨Real.sin, Real.cos, Real.sqrt, Real.pi⟩
      (⟨315000 / 1021609, false, false, false, false, false, false, false, false⟩ : Input ℝ)
      (inPlay ⟨0, 1 / 2, 0⟩ ⟨0, 3087 / 1000, 0⟩ ⟨0, -(98 / 10), -(2000 / 9)⟩ 100 0
        STATE_SIMULATING)
    = inPlay ⟨0, 1 / 2, 0⟩ ⟨0, 0, 0⟩ ⟨0, -(450529569 / 45000000), 0⟩ 100 0 STATE_RESET := by
  have hI : integrate ⟨Real.sin, Real.cos, Real.sqrt, Real.pi⟩ (315000 / 1021609)
      (inPlay (⟨0, 1 / 2, 0⟩ : Vector3 ℝ) ⟨0, 3087 / 1000, 0⟩ ⟨0, -(98 / 10), -(2000 / 9)⟩ 100 0
        STATE_SIMULATING).ball
      = (inPlay (⟨0, 1 / 2, 0⟩ : Vector3 ℝ) ⟨0, 0, 0⟩ ⟨0, -(450529569 / 45000000), 0⟩ 100 0
          STATE_RESET).ball := by
    have hD : CalculateDragForce ⟨Real.sin, Real.cos, Real.sqrt, Real.pi⟩
        (inPlay (⟨0, 1 / 2, 0⟩ : Vector3 ℝ) ⟨0, 3087 / 1000, 0⟩ ⟨0, -(98 / 10), -(2000 / 9)⟩ 100 0
          STATE_SIMULATING).ball
        = ⟨0, -(3087 / 1000 * (3087 / 1000) / 100), 0⟩ := drag_y _ (3087 / 1000) (by norm_num) rfl
    refine (integrate_eta _ _ _).trans ?_
    rw [integrate_acceleration, integrate_velocity, integrate_position]
    simp only [specAcceleration, hD]
    norm_num [inPlay, init]
  rw [frame_simulating_kicked _ _ _ rfl rfl, updateTimer_inPlay, hI,
    groundCollision_above _ (by norm_num [inPlay, init])]
  rw [checks_of_stopped]
  · rfl
  · exact no_goal_at_spawn
  · rw [stopped_iff]
    constructor
    · show Vector3Length _ (⟨0, 0, 0⟩ : Vector3 ℝ) < 1 / 10
      rw [length_zero]; norm_num
    · norm_num [inPlay, init]
  · rw [← Bool.not_eq_true, outOfBounds_iff]
    norm_num [inPlay, init]

/-- The three frames of the trace, run from the initial state. -/
theorem trace_run :
    run ⟨Real.sin, Real.cos, Real.sqrt, Real.pi⟩
      [(⟨5, true, false, false, true, false, false, true, false⟩ : Input ℝ),
       ⟨9 / 20, false, false, false, false, false, false, false, false⟩,
       ⟨315000 / 1021609, false, false, false, false, false, false, false, false⟩] init
    = inPlay ⟨0, 1 / 2, 0⟩ ⟨0, 0, 0⟩ ⟨0, -(450529569 / 45000000), 0⟩ 100 0 STATE_RESET := by
  rw [run_cons, run_cons, run_cons, run_nil, trace_frame1, trace_frame2, trace_frame3]

/-- C14, the claim as stated fails: the run of three frames from the initial
state (aim to strength 100 and angle 0 and kick; two frames of flight) reaches
RESET with `kickStrength = 100` and `kickAngle = 0`, and the next frame,
processed in RESET with the reset key pressed, ends with `kickStrength = 50`
and `kickAngle = 15`. -/
theorem reset_frame_changes_kick_parameters :
    (run ⟨Real.sin, Real.cos, Real.sqrt, Real.pi⟩
      [(⟨5, true, false, false, true, false, false, true, false⟩ : Input ℝ),
       ⟨9 / 20, false, false, false, false, false, false, false, false⟩,
       ⟨315000 / 1021609, false, false, false, false, false, false, false, false⟩]
      init).currentState = STATE_RESET ∧
    (run ⟨Real.sin, Real.cos, Real.sqrt, Real.pi⟩
      [(⟨5, true, false, false, true, false, false, true, false⟩ : Input ℝ),
       ⟨9 / 20, false, false, false, false, false, false, false, false⟩,
       ⟨315000 / 1021609, false, false, false, false, false, false, false, false⟩]
      init).kickStrength = 100 ∧
    (frame ⟨Real.sin, Real.cos, Real.sqrt, Real.pi⟩
      (⟨1 / 60, false, false, false, false, false, false, false, true⟩ : Input ℝ)
      (run ⟨Real.sin, Real.cos, Real.sqrt, Real.pi⟩
        [(⟨5, true, false, false, true, false, false, true, false⟩ : Input ℝ),
         ⟨9 / 20, false, false, false, false, false, false, false, false⟩,
         ⟨315000 / 1021609, false, false, false, false, false, false, false, false⟩]
        init)).kickStrength = 50 ∧
    (frame ⟨Real.sin, Real.cos, Real.sqrt, Real.pi⟩
      (⟨1 / 60, false, false, false, false, false, false, false, true⟩ : Input ℝ)
      (run ⟨Real.sin, Real.cos, Real.sqrt, Real.pi⟩
        [(⟨5, true, false, false, true, false, false, true, false⟩ : Input ℝ),
         ⟨9 / 20, false, false, false, false, false, false, false, false⟩,
         ⟨315000 / 1021609, false, false, false, false, false, false, false, false⟩]
        init)).kickStrength
      ≠ (run ⟨Real.sin, Real.cos, Real.sqrt, Real.pi⟩
        [(⟨5, true, false, false, true, false, false, true, false⟩ : Input ℝ),
         ⟨9 / 20, false, false, false, false, false, false, false, false⟩,
         ⟨315000 / 1021609, false, false, false, false, false, false, false, false⟩]
        init).kickStrength := by
  rw [trace_run]
  have h50 : (frame ⟨Real.sin, Real.cos, Real.sqrt, Real.pi⟩
      (⟨1 / 60, false, false, false, false, false, false, false, true⟩ : Input ℝ)
      (inPlay ⟨0, 1 / 2, 0⟩ ⟨0, 0, 0⟩ ⟨0, -(450529569 / 45000000), 0⟩ 100 0
        STATE_RESET)).kickStrength = 50 := by
    rw [frame_reset _ _ _ rfl]
    exact ((stepReset_params _ _).1 rfl).1
  refine ⟨rfl, rfl, h50, ?_⟩
  rw [h50]
  norm_num [inPlay]

/-- Applying the amended C14 to a RESET frame without the reset key. -/
theorem kick_parameters_outside_aiming_witness :
    (frame ⟨Real.sin, Real.cos, Real.sqrt, Real.pi⟩
      (⟨1 / 60, true, false, true, false, true, false, true, false⟩ : Input ℝ)
      (inPlay ⟨0, 1 / 2, 0⟩ ⟨0, 0, 0⟩ ⟨0, 0, 0⟩ 100 0 STATE_RESET)).kickStrength = 100 :=
  ((kick_parameters_outside_aiming ⟨Real.sin, Real.cos, Real.sqrt, Real.pi⟩
      (⟨1 / 60, true, false, true, false, true, false, true, false⟩ : Input ℝ)
      (inPlay ⟨0, 1 / 2, 0⟩ ⟨0, 0, 0⟩ ⟨0, 0, 0⟩ 100 0 STATE_RESET)).2.1 rfl rfl).1

end Trace
section Message2

/-- A ball one metre in front of the goal line, flying at 10 along `z` at
height 2, reaches the goal box within a tenth of a second: a goal is detected
in that frame, whatever the message and the timer are. -/
theorem goalDetected_entering_goal (msg : String) (t : ℝ) :
    goalDetected ⟨Real.sin, Real.cos, Real.sqrt, Real.pi⟩
      (⟨1 / 10, false, false, false, false, false, false, false, false⟩ : Input ℝ)
      { kickedAt (⟨0, 2, 23⟩ : Vector3 ℝ) ⟨0, 0, 10⟩ with goalMessage := msg, messageTimer := t }
      = true := by
  have hD : CalculateDragForce ⟨Real.sin, Real.cos, Real.sqrt, Real.pi⟩
      (kickedAt (⟨0, 2, 23⟩ : Vector3 ℝ) ⟨0, 0, 10⟩).ball = ⟨0, 0, -(10 * 10 / 100)⟩ :=
    drag_z _ 10 (by norm_num) rfl
  have hI : integrate ⟨Real.sin, Real.cos, Real.sqrt, Real.pi⟩ (1 / 10)
      (kickedAt (⟨0, 2, 23⟩ : Vector3 ℝ) ⟨0, 0, 10⟩).ball
      = { (kickedAt (⟨0, 2, 23⟩ : Vector3 ℝ) ⟨0, 0, 10⟩).ball with
          acceleration := ⟨0, -(98 / 10), -(20 / 9)⟩
          velocity := ⟨0, -(98 / 100), 88 / 9⟩
          position := ⟨0, 1902 / 1000, 23 + 88 / 90⟩ } := by
    refine (integrate_eta _ _ _).trans ?_
    rw [integrate_acceleration, integrate_velocity, integrate_position]
    simp only [specAcceleration, hD]
    norm_num [kickedAt, init]
  rw [goalDetected_eq_true_iff]
  refine ⟨rfl, rfl, ?_⟩
  rw [goalBox_meets_iff]
  show SphereMeetsBox _ (groundCollision (integrate _ (1 / 10)
    (kickedAt (⟨0, 2, 23⟩ : Vector3 ℝ) ⟨0, 0, 10⟩).ball)).position _
  rw [hI, groundCollision_above _ (by norm_num [kickedAt, init])]
  exact ⟨⟨0, 1902 / 1000, 24⟩, by norm_num [kickedAt, init]⟩

/-- C13, the claim as stated fails: a frame that begins with `messageTimer = 1 > 0`
and in which a goal is detected ends with `messageTimer = 3`, not `1 - dt`. -/
theorem message_timer_not_decreased_on_goal :
    ({ kickedAt (⟨0, 2, 23⟩ : Vector3 ℝ) ⟨0, 0, 10⟩ with
        goalMessage := "GOAL!!!", messageTimer := 1 } : Sim ℝ).messageTimer > 0 ∧
    (frame ⟨Real.sin, Real.cos, Real.sqrt, Real.pi⟩
        (⟨1 / 10, false, false, false, false, false, false, false, false⟩ : Input ℝ)
        { kickedAt (⟨0, 2, 23⟩ : Vector3 ℝ) ⟨0, 0, 10⟩ with
          goalMessage := "GOAL!!!", messageTimer := 1 }).messageTimer = 3 ∧
    (frame ⟨Real.sin, Real.cos, Real.sqrt, Real.pi⟩
        (⟨1 / 10, false, false, false, false, false, false, false, false⟩ : Input ℝ)
        { kickedAt (⟨0, 2, 23⟩ : Vector3 ℝ) ⟨0, 0, 10⟩ with
          goalMessage := "GOAL!!!", messageTimer := 1 }).messageTimer
      ≠ ({ kickedAt (⟨0, 2, 23⟩ : Vector3 ℝ) ⟨0, 0, 10⟩ with
            goalMessage := "GOAL!!!", messageTimer := 1 } : Sim ℝ).messageTimer
          - (⟨1 / 10, false, false, false, false, false, false, false, false⟩ : Input ℝ).dt := by
  have h3 : (frame ⟨Real.sin, Real.cos, Real.sqrt, Real.pi⟩
        (⟨1 / 10, false, false, false, false, false, false, false, false⟩ : Input ℝ)
        { kickedAt (⟨0, 2, 23⟩ : Vector3 ℝ) ⟨0, 0, 10⟩ with
          goalMessage := "GOAL!!!", messageTimer := 1 }).messageTimer = 3 := by
    rw [frame_messageTimer, goalDetected_entering_goal, if_pos rfl]
  refine ⟨by norm_num, h3, ?_⟩
  rw [h3]
  norm_num

/-- Applying the amended C13 to an aiming frame that begins with timer 1: no
goal is detected, and the frame ends with timer `1 - 1/60` and the message kept. -/
theorem message_clearing_witness :
    (frame ⟨Real.sin, Real.cos, Real.sqrt, Real.pi⟩
        (⟨1 / 60, false, false, false, false, false, false, false, false⟩ : Input ℝ)
        { (init : Sim ℝ) with goalMessage := "GOAL!!!", messageTimer := 1 }).messageTimer
      = 1 - 1 / 60 ∧
    (frame ⟨Real.sin, Real.cos, Real.sqrt, Real.pi⟩
        (⟨1 / 60, false, false, false, false, false, false, false, false⟩ : Input ℝ)
        { (init : Sim ℝ) with goalMessage := "GOAL!!!", messageTimer := 1 }).goalMessage
      = "GOAL!!!" :=
  ((message_clearing ⟨Real.sin, Real.cos, Real.sqrt, Real.pi⟩
    (⟨1 / 60, false, false, false, false, false, false, false, false⟩ : Input ℝ)
    { (init : Sim ℝ) with goalMessage := "GOAL!!!", messageTimer := 1 }).2
    (by norm_num)).2.2.1 rfl

end Message2
section Stale
variable {F : Type} [LinearOrderedField F]

/-! ## The stored acceleration is not an input of a frame -/

/-- Integration does not read the stored acceleration. -/
theorem integrate_ignores_acceleration (m : LibM F) (dt : F) (b : Ball F) (a : Vector3 F) :
    integrate m dt { b with acceleration := a } = integrate m dt b := rfl

theorem updateTimer_set_ball (dt : F) (s : Sim F) (b : Ball F) :
    updateTimer dt { s with ball := b } = { updateTimer dt s with ball := b } := by
  unfold updateTimer; split_ifs <;> rfl

/-- C15. Acceleration is never stale: in a kicked SIMULATING frame the whole
resulting state (ball, parameters, state, message, timer) does not depend on
the ball's acceleration field at the start of the frame: replacing that field
by any vector `a`, with the same input, gives the same resulting state. -/
theorem acceleration_never_stale (m : LibM F) (inp : Input F) (s : Sim F) (a : Vector3 F)
    (hs : s.currentState = STATE_SIMULATING) (hk : s.ball.isKicked = true) :
    frame m inp { s with ball := { s.ball with acceleration := a } } = frame m inp s := by
  rw [frame_simulating_kicked m inp s hs hk,
    frame_simulating_kicked m inp { s with ball := { s.ball with acceleration := a } } hs hk,
    updateTimer_set_ball]
  rfl

/-- Applying C15 to a ball in flight whose stored acceleration is replaced by `(7,7,7)`. -/
theorem acceleration_never_stale_witness :
    frame ⟨Real.sin, Real.cos, Real.sqrt, Real.pi⟩
        (⟨1 / 60, false, false, false, false, false, false, false, false⟩ : Input ℝ)
        { kickedAt (⟨0, 2, 0⟩ : Vector3 ℝ) ⟨0, 0, 10⟩ with
          ball := { (kickedAt (⟨0, 2, 0⟩ : Vector3 ℝ) ⟨0, 0, 10⟩).ball with
                    acceleration := ⟨7, 7, 7⟩ } }
      = frame ⟨Real.sin, Real.cos, Real.sqrt, Real.pi⟩
        (⟨1 / 60, false, false, false, false, false, false, false, false⟩ : Input ℝ)
        (kickedAt (⟨0, 2, 0⟩ : Vector3 ℝ) ⟨0, 0, 10⟩) :=
  acceleration_never_stale ⟨Real.sin, Real.cos, Real.sqrt, Real.pi⟩
    (⟨1 / 60, false, false, false, false, false, false, false, false⟩ : Input ℝ)
    (kickedAt (⟨0, 2, 0⟩ : Vector3 ℝ) ⟨0, 0, 10⟩) ⟨7, 7, 7⟩ rfl rfl

end Stale
section Rest
variable {F : Type} [LinearOrderedField F]

/-! ## A ball resting on the ground -/

end Rest
section Invariants
variable {F : Type} [LinearOrderedField F]

/-! ## Invariants of the ball over a run -/

theorem stepAiming_not_pressed (m : LibM F) (inp : Input F) (s : Sim F)
    (hk : ¬ inp.keySpace = true) : stepAiming m inp s = aimControls inp s := by
  unfold stepAiming; rw [if_neg hk]

theorem frame_kickedTracksState (m : LibM F) (inp : Input F) (s : Sim F)
    (h : KickedTracksState s) : KickedTracksState (frame m inp s) := by
  obtain ⟨h1, h2⟩ := h
  cases hs : s.currentState
  · obtain ⟨p0, v0, w0⟩ := h2 hs
    have hnk : ¬ s.ball.isKicked = true := fun hk => (h1.mp hk) hs
    rw [frame_aiming m inp s hs]
    by_cases hk : inp.keySpace = true
    · rw [stepAiming_pressed m inp _ hk]
      exact ⟨⟨fun _ => by simp [kickBall], fun _ => rfl⟩,
        fun hc => absurd hc (by simp [kickBall])⟩
    · rw [stepAiming_not_pressed m inp _ hk]
      unfold KickedTracksState
      rw [aimControls_ball, aimControls_currentState, updateTimer_ball,
        updateTimer_currentState]
      exact ⟨h1, h2⟩
  · have hk : s.ball.isKicked = true := h1.mpr (by rw [hs]; decide)
    have hst := frame_simulating_state m inp s hs hk
    have hb := frame_simulating_ball m inp s hs hk
    have hne : (frame m inp s).currentState ≠ STATE_AIMING := by
      rw [hst]; split_ifs <;> decide
    refine ⟨⟨fun _ => hne, fun _ => ?_⟩, fun hc => absurd hc hne⟩
    rw [hb, groundCollision_isKicked, integrate_isKicked]
    exact hk
  · have hk : s.ball.isKicked = true := h1.mpr (by rw [hs]; decide)
    rw [frame_reset m inp s hs]
    unfold stepReset
    split_ifs
    · exact ⟨⟨fun hc => absurd hc (by simp), fun hc => absurd rfl hc⟩,
        fun _ => ⟨rfl, rfl, rfl⟩⟩
    · unfold KickedTracksState
      rw [updateTimer_ball, updateTimer_currentState]
      exact ⟨h1, h2⟩

theorem init_kickedTracksState : KickedTracksState (init : Sim F) :=
  ⟨⟨fun hc => absurd hc (by simp [init]), fun hc => absurd rfl hc⟩, fun _ => ⟨rfl, rfl, rfl⟩⟩

theorem run_kickedTracksState (m : LibM F) (inputs : List (Input F)) (s : Sim F)
    (h : KickedTracksState s) : KickedTracksState (run m inputs s) := by
  induction inputs generalizing s with
  | nil => exact h
  | cons inp rest ih => rw [run_cons]; exact ih _ (frame_kickedTracksState m inp s h)

/-- C18. The kicked flag tracks the state: in every state reachable from the
initial state, `ball.isKicked` is true if and only if the state is not AIMING;
whenever the state is AIMING the ball is at `(0,0.5,0)` with zero velocity and
zero angular velocity; and whenever the state is SIMULATING `ball.isKicked` is
true, so the guard of the SIMULATING branch is never false. -/
theorem kicked_flag_tracks_state (m : LibM F) (inputs : List (Input F)) :
    ((run m inputs init).ball.isKicked = true ↔
      (run m inputs init).currentState ≠ STATE_AIMING) ∧
    ((run m inputs init).currentState = STATE_AIMING →
      (run m inputs init).ball.position = ⟨0, 1 / 2, 0⟩ ∧
      (run m inputs init).ball.velocity = ⟨0, 0, 0⟩ ∧
      (run m inputs init).ball.angularVelocity = ⟨0, 0, 0⟩) ∧
    ((run m inputs init).currentState = STATE_SIMULATING →
      (run m inputs init).ball.isKicked = true) := by
  obtain ⟨h1, h2⟩ := run_kickedTracksState m inputs init init_kickedTracksState
  exact ⟨h1, h2, fun hs => h1.mpr (by rw [hs]; decide)⟩

end Invariants
section Magnus
variable {F : Type} [LinearOrderedField F]

/-- Applying C18 after the kick frame of the trace: the state is SIMULATING, so
the ball is kicked. -/
theorem kicked_flag_tracks_state_witness :
    (run ⟨Real.sin, Real.cos, Real.sqrt, Real.pi⟩
      [(⟨5, true, false, false, true, false, false, true, false⟩ : Input ℝ)]
      init).ball.isKicked = true :=
  (kicked_flag_tracks_state ⟨Real.sin, Real.cos, Real.sqrt, Real.pi⟩
    [(⟨5, true, false, false, true, false, false, true, false⟩ : Input ℝ)]).2.2
    (by rw [run_cons, run_nil, trace_frame1]; rfl)

/-! ## The Magnus force -/

end Magnus

/-! ## Binary32: comparisons and guards -/

section B32Guards

theorem F32.lt_def (a b : F32) : (a < b) = (F32.lt a b = true) := rfl

theorem F32.le_def (a b : F32) : (a ≤ b) = (F32.le a b = true) := rfl

theorem F32.lit_15 : (15 : F32) = F32.fin 15 := by decide!
theorem F32.lit_half : (0.5 : F32) = F32.fin (1 / 2) := by decide!

end B32Guards

/-! ## Binary32: what a frame keeps -/

section B32Frames

theorem updateTimer_ball_b32 (dt : F32) (s : Sim F32) :
    (Binary32.updateTimer dt s).ball = s.ball := by
  unfold Binary32.updateTimer; split_ifs <;> rfl

theorem updateTimer_currentState_b32 (dt : F32) (s : Sim F32) :
    (Binary32.updateTimer dt s).currentState = s.currentState := by
  unfold Binary32.updateTimer; split_ifs <;> rfl

theorem checks_ball_b32 (m : LibM F32) (s : Sim F32) :
    (Binary32.checks m s).ball = s.ball := by
  unfold Binary32.checks; simp only; split_ifs <;> rfl

theorem frame_aiming_b32 (m : LibM F32) (inp : Input F32) (s : Sim F32)
    (hs : s.currentState = STATE_AIMING) :
    Binary32.frame m inp s = Binary32.stepAiming m inp (Binary32.updateTimer inp.dt s) := by
  unfold Binary32.frame Binary32.dispatch; rw [updateTimer_currentState_b32, hs]

theorem frame_simulating_b32 (m : LibM F32) (inp : Input F32) (s : Sim F32)
    (hs : s.currentState = STATE_SIMULATING) :
    Binary32.frame m inp s = Binary32.stepSimulating m inp (Binary32.updateTimer inp.dt s) := by
  unfold Binary32.frame Binary32.dispatch; rw [updateTimer_currentState_b32, hs]

theorem frame_reset_b32 (m : LibM F32) (inp : Input F32) (s : Sim F32)
    (hs : s.currentState = STATE_RESET) :
    Binary32.frame m inp s = Binary32.stepReset inp (Binary32.updateTimer inp.dt s) := by
  unfold Binary32.frame Binary32.dispatch; rw [updateTimer_currentState_b32, hs]

theorem run_cons_b32 (m : LibM F32) (inp : Input F32) (inputs : List (Input F32))
    (s : Sim F32) :
    Binary32.run m (inp :: inputs) s = Binary32.run m inputs (Binary32.frame m inp s) := rfl

/-! ## Binary32: the kick parameters are guarded -/

end B32Frames

section B32Invariants

end B32Invariants

section B32Ground

theorem F32.lt_irrefl (x : F32) : ¬ (x < x) := by
  cases x <;> simp [F32.lt_def, F32.lt]

/-- A value that is not below a finite one is NaN or at least that value. -/
theorem F32.nan_or_le_of_not_lt (a : ℚ) (x : F32) (h : ¬ (x < F32.fin a)) :
    x = F32.nan ∨ F32.fin a ≤ x := by
  cases x with
  | fin q =>
    right
    simp only [F32.lt_def, F32.lt, decide_eq_true_eq, not_lt] at h
    simpa [F32.le_def, F32.le] using h
  | pinf => right; simp [F32.le_def, F32.le]
  | ninf => exact absurd (by simp [F32.lt_def, F32.lt]) h
  | nan => left; rfl

theorem groundCollision_radius_b32 (b : Ball F32) :
    (Binary32.groundCollision b).radius = b.radius := by
  unfold Binary32.groundCollision; split_ifs <;> rfl

theorem groundCollision_mass_b32 (b : Ball F32) :
    (Binary32.groundCollision b).mass = b.mass := by
  unfold Binary32.groundCollision; split_ifs <;> rfl

/-- After the ground response `position.y < radius` is false, whatever the
ball, NaN included. -/
theorem groundCollision_not_below_b32 (b : Ball F32) :
    ¬ ((Binary32.groundCollision b).position.y < (Binary32.groundCollision b).radius) := by
  unfold Binary32.groundCollision
  split_ifs with h
  · exact F32.lt_irrefl _
  · exact h

theorem stepAiming_ball_fixed_b32 (m : LibM F32) (inp : Input F32) (s : Sim F32) :
    (Binary32.stepAiming m inp s).ball.position = s.ball.position ∧
    (Binary32.stepAiming m inp s).ball.radius = s.ball.radius ∧
    (Binary32.stepAiming m inp s).ball.mass = s.ball.mass := by
  unfold Binary32.stepAiming; split_ifs <;> exact ⟨rfl, rfl, rfl⟩

theorem frame_notBelowGround_b32 (m : LibM F32) (inp : Input F32) (s : Sim F32)
    (h : Binary32.NotBelowGround s) : Binary32.NotBelowGround (Binary32.frame m inp s) := by
  obtain ⟨h1, h2, h3⟩ := h
  cases hs : s.currentState
  · rw [frame_aiming_b32 m inp s hs]
    obtain ⟨e1, e2, e3⟩ := stepAiming_ball_fixed_b32 m inp (Binary32.updateTimer inp.dt s)
    unfold Binary32.NotBelowGround
    rw [e1, e2, e3, updateTimer_ball_b32]
    exact ⟨h1, h2, h3⟩
  · rw [frame_simulating_b32 m inp s hs]
    unfold Binary32.stepSimulating
    split_ifs
    · unfold Binary32.NotBelowGround
      rw [checks_ball_b32]
      refine ⟨groundCollision_not_below_b32 _, ?_, ?_⟩
      · rw [groundCollision_radius_b32, updateTimer_ball_b32]; exact h2
      · rw [groundCollision_mass_b32, updateTimer_ball_b32]; exact h3
    · unfold Binary32.NotBelowGround
      rw [updateTimer_ball_b32]
      exact ⟨h1, h2, h3⟩
  · rw [frame_reset_b32 m inp s hs]
    unfold Binary32.stepReset Binary32.NotBelowGround
    split_ifs
    · simp only [updateTimer_ball_b32]
      exact ⟨by rw [h2]; exact F32.lt_irrefl _, h2, h3⟩
    · rw [updateTimer_ball_b32]
      exact ⟨h1, h2, h3⟩

theorem init_notBelowGround_b32 : Binary32.NotBelowGround Binary32.init :=
  ⟨F32.lt_irrefl _, rfl, rfl⟩

theorem run_notBelowGround_b32 (m : LibM F32) (inputs : List (Input F32)) (s : Sim F32)
    (h : Binary32.NotBelowGround s) : Binary32.NotBelowGround (Binary32.run m inputs s) := by
  induction inputs generalizing s with
  | nil => exact h
  | cons inp rest ih => rw [run_cons_b32]; exact ih _ (frame_notBelowGround_b32 m inp s h)

/-- C17 (amended). Ball never sinks below the ground: in binary32 arithmetic,
from the initial state, after any finite sequence of frames with any `float`
frame times and any keys, and for any `sinf` and `cosf`, the comparison
`ball.position.y < ball.radius` is false, so `position.y` is NaN or at least
the radius; and the radius is `0.5f` and the mass `0.45f`. -/
theorem ball_not_below_ground (m : LibM F32) (inputs : List (Input F32)) :
    ¬ ((Binary32.run m inputs Binary32.init).ball.position.y
        < (Binary32.run m inputs Binary32.init).ball.radius) ∧
    ((Binary32.run m inputs Binary32.init).ball.position.y = F32.nan ∨
      (Binary32.run m inputs Binary32.init).ball.radius
        ≤ (Binary32.run m inputs Binary32.init).ball.position.y) ∧
    (Binary32.run m inputs Binary32.init).ball.radius = F32.fin (1 / 2) ∧
    (Binary32.run m inputs Binary32.init).ball.mass = F32.fin (7549747 / 16777216) := by
  obtain ⟨h1, h2, h3⟩ := run_notBelowGround_b32 m inputs Binary32.init init_notBelowGround_b32
  have hr : (Binary32.run m inputs Binary32.init).ball.radius = F32.fin (1 / 2) := by
    rw [h2]; exact F32.lit_half
  refine ⟨h1, ?_, hr, ?_⟩
  · rw [hr] at h1 ⊢
    exact F32.nan_or_le_of_not_lt _ _ h1
  · rw [h3]; decide!

/-- C17, the claim as stated fails: kick at strength 100 and angle 0 (UP and S
held for 5 s, SPACE), then a frame of `1e20` seconds, in which the position
overflows, then a frame of `1/60` s, in which `0 * inf` in the drag force is
NaN: the run ends with `position.y = NaN`, for which `radius <= position.y` is
false. -/
theorem position_nan_after_overflow :
    (Binary32.run Binary32.libm
      [⟨5, true, false, false, true, false, false, true, false⟩,
       ⟨F32.ofRat (10 ^ 20), false, false, false, false, false, false, false, false⟩,
       ⟨F32.ofRat (1 / 60), false, false, false, false, false, false, false, false⟩]
      Binary32.init).ball.position.y = F32.nan ∧
    ¬ ((Binary32.run Binary32.libm
      [⟨5, true, false, false, true, false, false, true, false⟩,
       ⟨F32.ofRat (10 ^ 20), false, false, false, false, false, false, false, false⟩,
       ⟨F32.ofRat (1 / 60), false, false, false, false, false, false, false, false⟩]
      Binary32.init).ball.radius
      ≤ (Binary32.run Binary32.libm
      [⟨5, true, false, false, true, false, false, true, false⟩,
       ⟨F32.ofRat (10 ^ 20), false, false, false, false, false, false, false, false⟩,
       ⟨F32.ofRat (1 / 60), false, false, false, false, false, false, false, false⟩]
      Binary32.init).ball.position.y) := by
  decide!

end B32Ground

section B32Counterexamples

end B32Counterexamples

end FreeKick
